import Mathlib

/-!
Verification development for the sysmon telemetry collector
(src/monitoring/sysmon.py).  The Python source is shallowly embedded:
kernel counters are integers, wall and monotonic times are rationals,
fallible reads are Except values, and the mutable module state of the
sampling loop and the GPU backend is passed explicitly.
-/

namespace Sysmon

/-- Association-list lookup, modelling Python dict access (key in d / d[k]). -/
def alookup {α β : Type} [DecidableEq α] (l : List (α × β)) (k : α) : Option β :=
  match l with
  | [] => none
  | (a, b) :: t => if a = k then some b else alookup t k

/-- Removal of a key, modelling dict.pop(k, None). -/
def aerase {α β : Type} [DecidableEq α] (l : List (α × β)) (k : α) : List (α × β) :=
  l.filter fun ab => decide (ab.1 ≠ k)

/-- Keyed update, modelling d[k] = v (update in place, else append). -/
def aupdate {α β : Type} [DecidableEq α] (l : List (α × β)) (k : α) (v : β) :
    List (α × β) :=
  if (alookup l k).isSome then
    l.map fun ab => if ab.1 = k then (k, v) else ab
  else l ++ [(k, v)]

-- ── CPU delta engine (cpu_delta in sysmon.py) ───────────────────────────

/-- Key of the per-CPU dict built by parse_cpu_stat: the aggregate
pseudo-core or a numeric core index. -/
inductive CpuKey where
  | all
  | idx (n : ℕ)
deriving DecidableEq

/-- The eight derived percentages produced per core by cpu_delta. -/
structure CpuPcts where
  user : ℚ
  sys : ℚ
  idle : ℚ
  iowait : ℚ
  irq : ℚ
  softirq : ℚ
  steal : ℚ
  guest : ℚ
deriving DecidableEq

/-- The all-zero record produced by cpu_delta when the summed delta is 0. -/
def cpuZeroPcts : CpuPcts :=
  { user := 0, sys := 0, idle := 0, iowait := 0,
    irq := 0, softirq := 0, steal := 0, guest := 0 }

/-- Tick deltas d with d i = c i - p i for i in range of the length of c. -/
def tickDeltas (p c : List ℤ) : List ℤ :=
  (List.range c.length).map fun i => c.getD i 0 - p.getD i 0

/-- One core of cpu_delta.  Returns none where the Python code raises
IndexError: a prev vector shorter than curr, or a nonzero-total vector
with fewer than 9 fields (d 8 is read in both guest branches). -/
def cpu_core_delta (p c : List ℤ) : Option CpuPcts :=
  if p.length < c.length then none
  else
    let d := tickDeltas p c
    let total := d.sum
    if total = 0 then some cpuZeroPcts
    else if d.length < 9 then none
    else some {
      user := ((d.getD 0 0 + d.getD 1 0 : ℤ) : ℚ) / (total : ℚ) * 100
      sys := ((d.getD 2 0 : ℤ) : ℚ) / (total : ℚ) * 100
      idle := ((d.getD 3 0 : ℤ) : ℚ) / (total : ℚ) * 100
      iowait := ((d.getD 4 0 : ℤ) : ℚ) / (total : ℚ) * 100
      irq := ((d.getD 5 0 : ℤ) : ℚ) / (total : ℚ) * 100
      softirq := ((d.getD 6 0 : ℤ) : ℚ) / (total : ℚ) * 100
      steal := ((d.getD 7 0 : ℤ) : ℚ) / (total : ℚ) * 100
      guest := if 9 < d.length
               then ((d.getD 8 0 + d.getD 9 0 : ℤ) : ℚ) / (total : ℚ) * 100
               else ((d.getD 8 0 : ℤ) : ℚ) / (total : ℚ) * 100 }

/-- Dict level cpu_delta: keys of curr absent from prev are skipped; a
raise in any core computation aborts the whole call (none). -/
def cpu_delta (prev curr : List (CpuKey × List ℤ)) :
    Option (List (CpuKey × CpuPcts)) :=
  curr.foldlM (fun acc kc =>
    match alookup prev kc.1 with
    | none => some acc
    | some p => (cpu_core_delta p kc.2).map fun r => acc ++ [(kc.1, r)]) []

-- ── Disk delta engine (diskstat_delta in sysmon.py) ─────────────────────

/-- Raw per-device counters parsed from /proc/diskstats. -/
structure DiskSnap where
  reads : ℤ
  sectors_read : ℤ
  ms_reading : ℤ
  writes : ℤ
  sectors_written : ℤ
  ms_writing : ℤ
  ios_in_progress : ℤ
  weighted_ms_io : ℤ
deriving DecidableEq

/-- Normalized per-device rates produced by diskstat_delta. -/
structure DiskRates where
  r_per_s : ℚ
  w_per_s : ℚ
  rMB_per_s : ℚ
  wMB_per_s : ℚ
  avg_r_lat_ms : ℚ
  avg_w_lat_ms : ℚ
  io_util_pct : ℚ
  ios_in_progress : ℤ
deriving DecidableEq

/-- Per-device body of diskstat_delta. -/
def diskstat_delta_dev (p c : DiskSnap) (dt : ℚ) : DiskRates :=
  let dr := c.reads - p.reads
  let dw := c.writes - p.writes
  let dsr := c.sectors_read - p.sectors_read
  let dsw := c.sectors_written - p.sectors_written
  let dmr := c.ms_reading - p.ms_reading
  let dmw := c.ms_writing - p.ms_writing
  let dwio := c.weighted_ms_io - p.weighted_ms_io
  { r_per_s := (dr : ℚ) / dt
    w_per_s := (dw : ℚ) / dt
    rMB_per_s := (dsr : ℚ) * 512 / 1024 / 1024 / dt
    wMB_per_s := (dsw : ℚ) * 512 / 1024 / 1024 / dt
    avg_r_lat_ms := if 0 < dr then (dmr : ℚ) / (dr : ℚ) else 0
    avg_w_lat_ms := if 0 < dw then (dmw : ℚ) / (dw : ℚ) else 0
    io_util_pct := min ((dwio : ℚ) / (dt * 1000) * 100) 100
    ios_in_progress := c.ios_in_progress }

/-- Dict level diskstat_delta: devices absent from prev are skipped. -/
def diskstat_delta (prev curr : List (String × DiskSnap)) (dt : ℚ) :
    List (String × DiskRates) :=
  curr.filterMap fun dc =>
    match alookup prev dc.1 with
    | none => none
    | some p => some (dc.1, diskstat_delta_dev p dc.2 dt)

-- ── GPU backend state machine (get_vram in sysmon.py) ───────────────────

/-- Outcome of one vendor query attempt. -/
inductive QueryOutcome where
  | success
  | failure
deriving DecidableEq

/-- Mutable GPU backend state: the NVML direct-binding flag (USE_NVML)
and the consecutive failure counter (NVML_FAIL_COUNT). -/
structure GpuState where
  useNvml : Bool
  failCount : ℕ
deriving DecidableEq

/-- Failure threshold NVML_FAIL_MAX. -/
def NVML_FAIL_MAX : ℕ := 3

/-- State effect of one get_vram call.  While the direct binding is
active, a query failure increments the counter and switches to the
subprocess path at the threshold; a success resets the counter.  On the
subprocess path the call never touches this state, whatever the
subprocess outcome smi is. -/
def get_vram_step (s : GpuState) (nvml : QueryOutcome) (_smi : QueryOutcome) :
    GpuState :=
  if s.useNvml then
    match nvml with
    | .success => { s with failCount := 0 }
    | .failure =>
      let fc := s.failCount + 1
      if NVML_FAIL_MAX ≤ fc then { useNvml := false, failCount := fc }
      else { s with failCount := fc }
  else s

/-- Iterated get_vram calls over a run; each event carries the outcome
of the direct query and of the subprocess query. -/
def get_vram_run (s : GpuState) (evs : List (QueryOutcome × QueryOutcome)) :
    GpuState :=
  evs.foldl (fun st e => get_vram_step st e.1 e.2) s

-- ── Correlator (correlate_events in sysmon.py) ──────────────────────────

/-- One categorized X-Plane log event. -/
structure XpEvent where
  ts : ℚ
  cat : String
  msg : String
deriving DecidableEq

/-- One parsed metric-stream row: timestamp and the selected value. -/
structure CsvRow where
  ts : ℚ
  val : ℚ
deriving DecidableEq

/-- One correlation hit. -/
structure CorrHit where
  ts : ℚ
  val : ℚ
  nearby : List XpEvent
deriving DecidableEq

/-- The threshold guard of correlate_events: a row is skipped when a
threshold is given and the value is strictly below it. -/
def belowThreshold (threshold : Option ℚ) (v : ℚ) : Bool :=
  match threshold with
  | some t => decide (v < t)
  | none => false

/-- Events within the symmetric window of a row timestamp. -/
def nearbyEvents (events : List XpEvent) (ts window : ℚ) : List XpEvent :=
  events.filter fun e => decide (|e.ts - ts| ≤ window)

/-- correlate_events: rows at or above threshold keep all events within
the window; rows with no nearby event produce no hit. -/
def correlate_events (rows : List CsvRow) (events : List XpEvent)
    (threshold : Option ℚ) (window : ℚ) : List CorrHit :=
  if events.isEmpty then []
  else rows.filterMap fun row =>
    if belowThreshold threshold row.val then none
    else if (nearbyEvents events row.ts window).isEmpty then none
    else some { ts := row.ts, val := row.val,
                nearby := nearbyEvents events row.ts window }

-- ── Summary percentile helper (fmt3 in sysmon.py) ───────────────────────

/-- Python max over a nonempty list. -/
def listMax (l : List ℚ) : ℚ := l.foldl max (l.headD 0)

/-- The nearest-rank index int of n times 0.95, in exact arithmetic. -/
def p95Index (n : ℕ) : ℕ := n * 95 / 100

/-- The avg, max and p95 triple computed by fmt3; none models the dash
returned for lists of fewer than 2 values. -/
structure Fmt3Out where
  avg : ℚ
  mx : ℚ
  p95 : ℚ
deriving DecidableEq

/-- fmt3: mean, max, and nearest-rank p95 on the sorted values for more
than 20 samples, else the max. -/
def fmt3 (lst : List ℚ) : Option Fmt3Out :=
  if lst.length < 2 then none
  else
    let avg := lst.sum / (lst.length : ℚ)
    let mx := listMax lst
    let p95 := if 20 < lst.length
               then (List.insertionSort (· ≤ ·) lst).getD (p95Index lst.length) 0
               else mx
    some { avg := avg, mx := mx, p95 := p95 }

/-- The p95 component of fmt3. -/
def fmt3_p95 (lst : List ℚ) : Option ℚ := (fmt3 lst).map fun o => o.p95

-- ── Per-process tracking (the proc block of collect in sysmon.py) ───────

/-- Counters returned by read_proc_stats for one PID. -/
structure ProcStats where
  utime : ℤ
  stime : ℤ
  num_threads : ℤ
  read_bytes : ℤ
  write_bytes : ℤ
  rss_kb : ℤ
deriving DecidableEq

/-- One row of proc.csv. -/
structure ProcRow where
  ts : ℚ
  pid : ℕ
  name : String
  cpu_pct : ℚ
  rss_mb : ℚ
  io_r : ℚ
  io_w : ℚ
  threads : ℤ
deriving DecidableEq

/-- Accumulator of the per-PID loop: the tracked dict, the prev_proc
dict, and the rows written so far this tick. -/
structure ProcAcc where
  tracked : List (ℕ × String)
  prevProc : List (ℕ × ProcStats)
  rows : List ProcRow
deriving DecidableEq

/-- Body of the per-PID loop.  An unreadable PID is popped from both
dicts at once; a readable PID produces a row only if a previous reading
exists, then stores the current reading. -/
def proc_step (read : ℕ → Option ProcStats) (ts slowDt clkTck : ℚ)
    (acc : ProcAcc) (pn : ℕ × String) : ProcAcc :=
  match read pn.1 with
  | none =>
    { tracked := aerase acc.tracked pn.1
      prevProc := aerase acc.prevProc pn.1
      rows := acc.rows }
  | some ps =>
    let rss_mb := (ps.rss_kb : ℚ) / 1024
    let rows :=
      match alookup acc.prevProc pn.1 with
      | some pp =>
        let d_u := ps.utime - pp.utime
        let d_s := ps.stime - pp.stime
        let cpu_pct := ((d_u + d_s : ℤ) : ℚ) / clkTck / slowDt * 100
        let d_rb := ps.read_bytes - pp.read_bytes
        let d_wb := ps.write_bytes - pp.write_bytes
        let io_r := (d_rb : ℚ) / 1024 / 1024 / slowDt
        let io_w := (d_wb : ℚ) / 1024 / 1024 / slowDt
        acc.rows ++ [{ ts := ts, pid := pn.1, name := pn.2, cpu_pct := cpu_pct,
                       rss_mb := rss_mb, io_r := io_r, io_w := io_w,
                       threads := ps.num_threads }]
      | none => acc.rows
    { tracked := acc.tracked
      prevProc := aupdate acc.prevProc pn.1 ps
      rows := rows }

/-- One slow tick of per-process tracking: iterate a snapshot of the
tracked dict, mutating the dicts as in the source. -/
def proc_tick (tracked : List (ℕ × String)) (prevProc : List (ℕ × ProcStats))
    (read : ℕ → Option ProcStats) (ts slowDt clkTck : ℚ) : ProcAcc :=
  tracked.foldl (proc_step read ts slowDt clkTck)
    { tracked := tracked, prevProc := prevProc, rows := [] }

/-- Input of one slow tick of the process tracker: the rescan result
when the 5 s rescan fires this tick, and the per-PID counter reads. -/
structure ProcTickIn where
  scan : Option (List (ℕ × String))
  read : ℕ → Option ProcStats
  ts : ℚ
  slowDt : ℚ

/-- One slow tick at the tracker level: an optional full rescan replaces
the tracked dict, then the per-PID loop runs. -/
def proc_run_tick (clkTck : ℚ)
    (st : List (ℕ × String) × List (ℕ × ProcStats)) (inp : ProcTickIn) :
    (List (ℕ × String) × List (ℕ × ProcStats)) × List ProcRow :=
  let tracked := match inp.scan with
    | some s => s
    | none => st.1
  let r := proc_tick tracked st.2 inp.read inp.ts inp.slowDt clkTck
  ((r.tracked, r.prevProc), r.rows)

/-- Multi-tick run of the process tracker. -/
def proc_run (clkTck : ℚ)
    (st : List (ℕ × String) × List (ℕ × ProcStats)) :
    List ProcTickIn →
    (List (ℕ × String) × List (ℕ × ProcStats)) × List ProcRow
  | [] => (st, [])
  | inp :: rest =>
    let r := proc_run_tick clkTck st inp
    let rr := proc_run clkTck r.1 rest
    (rr.1, r.2 ++ rr.2)

-- ── Remaining readers and delta computations used by collect ────────────

/-- Sum of vmstat values whose key starts with the given string
(sum_prefix in sysmon.py). -/
def sum_pref (d : List (String × ℤ)) (pre : String) : ℤ :=
  (d.filter fun kv => kv.1.startsWith pre).foldl (fun a kv => a + kv.2) 0

/-- Value of a vmstat key with default 0 (dict.get(k, 0)). -/
def vget (d : List (String × ℤ)) (k : String) : ℤ := (alookup d k).getD 0

/-- One row of vmstat.csv. -/
structure VmstatRow where
  ctxt_s : ℚ
  pgfault_s : ℚ
  pgmajfault_s : ℚ
  pgscan_kswapd_s : ℚ
  pgscan_direct_s : ℚ
  pgsteal_kswapd_s : ℚ
  pgsteal_direct_s : ℚ
  allocstall_s : ℚ
  compact_stall_s : ℚ
  tlb_shootdown_s : ℚ
  nr_dirty : ℤ
  nr_writeback : ℤ
  pswpin_s : ℚ
  pswpout_s : ℚ
  wset_refault_anon_s : ℚ
  wset_refault_file_s : ℚ
  thp_fault_fallback_s : ℚ
deriving DecidableEq

/-- The vmstat block arithmetic of collect. -/
def vmstat_delta (prevV currV : List (String × ℤ)) (prevCtxt currCtxt : ℤ)
    (slowDt : ℚ) : VmstatRow :=
  { ctxt_s := ((currCtxt - prevCtxt : ℤ) : ℚ) / slowDt
    pgfault_s := ((vget currV "pgfault" - vget prevV "pgfault" : ℤ) : ℚ) / slowDt
    pgmajfault_s :=
      ((vget currV "pgmajfault" - vget prevV "pgmajfault" : ℤ) : ℚ) / slowDt
    pgscan_kswapd_s :=
      ((sum_pref currV "pgscan_kswapd" - sum_pref prevV "pgscan_kswapd" : ℤ) : ℚ)
        / slowDt
    pgscan_direct_s :=
      ((sum_pref currV "pgscan_direct" - sum_pref prevV "pgscan_direct" : ℤ) : ℚ)
        / slowDt
    pgsteal_kswapd_s :=
      ((sum_pref currV "pgsteal_kswapd" - sum_pref prevV "pgsteal_kswapd" : ℤ) : ℚ)
        / slowDt
    pgsteal_direct_s :=
      ((sum_pref currV "pgsteal_direct" - sum_pref prevV "pgsteal_direct" : ℤ) : ℚ)
        / slowDt
    allocstall_s :=
      ((sum_pref currV "allocstall" - sum_pref prevV "allocstall" : ℤ) : ℚ) / slowDt
    compact_stall_s :=
      ((vget currV "compact_stall" - vget prevV "compact_stall" : ℤ) : ℚ) / slowDt
    tlb_shootdown_s :=
      (((vget currV "nr_tlb_remote_flush" + vget currV "nr_tlb_remote_flush_received")
        - (vget prevV "nr_tlb_remote_flush"
           + vget prevV "nr_tlb_remote_flush_received") : ℤ) : ℚ) / slowDt
    nr_dirty := vget currV "nr_dirty"
    nr_writeback := vget currV "nr_writeback"
    pswpin_s := ((vget currV "pswpin" - vget prevV "pswpin" : ℤ) : ℚ) / slowDt
    pswpout_s := ((vget currV "pswpout" - vget prevV "pswpout" : ℤ) : ℚ) / slowDt
    wset_refault_anon_s :=
      ((vget currV "workingset_refault_anon"
        - vget prevV "workingset_refault_anon" : ℤ) : ℚ) / slowDt
    wset_refault_file_s :=
      ((vget currV "workingset_refault_file"
        - vget prevV "workingset_refault_file" : ℤ) : ℚ) / slowDt
    thp_fault_fallback_s :=
      ((vget currV "thp_fault_fallback"
        - vget prevV "thp_fault_fallback" : ℤ) : ℚ) / slowDt }

/-- One row of mem.csv. -/
structure MemRow where
  total : ℚ
  used : ℚ
  free : ℚ
  avail : ℚ
  buffers : ℚ
  cached : ℚ
  swap_used : ℚ
  swap_free : ℚ
  dirty : ℚ
  writeback : ℚ
deriving DecidableEq

/-- The memory block arithmetic of collect; none models the KeyError on
a mandatory meminfo key, caught by the memory try block. -/
def mem_compute (mi : List (String × ℤ)) : Option MemRow :=
  match alookup mi "MemTotal", alookup mi "MemFree", alookup mi "MemAvailable",
        alookup mi "Buffers", alookup mi "Cached", alookup mi "SwapTotal",
        alookup mi "SwapFree" with
  | some mt, some mf, some ma, some mb, some mc, some swt, some swf =>
    let total := (mt : ℚ) / 1024
    let free := (mf : ℚ) / 1024
    let avail := (ma : ℚ) / 1024
    let buffers := (mb : ℚ) / 1024
    let cached := (mc : ℚ) / 1024
    let used := total - free - buffers - cached
    let swap_total := (swt : ℚ) / 1024
    let swap_free := (swf : ℚ) / 1024
    let swap_used := swap_total - swap_free
    let dirty := (((alookup mi "Dirty").getD 0 : ℤ) : ℚ) / 1024
    let writeback := (((alookup mi "Writeback").getD 0 : ℤ) : ℚ) / 1024
    some { total := total, used := used, free := free, avail := avail,
           buffers := buffers, cached := cached, swap_used := swap_used,
           swap_free := swap_free, dirty := dirty, writeback := writeback }
  | _, _, _, _, _, _, _ => none

/-- One parsed /proc/interrupts line: per-CPU counts and description. -/
structure IrqSnap where
  counts : List ℤ
  desc : String
deriving DecidableEq

/-- interrupt_delta: per-IRQ per-core deltas, reported only when the
summed delta across cores is strictly positive. -/
def interrupt_delta (prev curr : List (String × IrqSnap)) (numCpus : ℕ) :
    List (String × List ℤ × String) :=
  curr.filterMap fun ic =>
    match alookup prev ic.1 with
    | none => none
    | some p =>
      let delta := (List.range numCpus).map fun i =>
        ic.2.counts.getD i 0 - p.counts.getD i 0
      if 0 < delta.sum then some (ic.1, delta, ic.2.desc) else none

/-- Kernel-computed pressure-stall averages, parsed rather than
differenced. -/
structure PsiData where
  cpu_some10 : ℚ
  cpu_some60 : ℚ
  mem_some10 : ℚ
  mem_some60 : ℚ
  mem_full10 : ℚ
  mem_full60 : ℚ
  io_some10 : ℚ
  io_some60 : ℚ
  io_full10 : ℚ
  io_full60 : ℚ
deriving DecidableEq

-- ── The sampling loop body (collect in sysmon.py) ───────────────────────

/-- Mutable state threaded through iterations of the collect loop. -/
structure MonState where
  prevCpu : List (CpuKey × List ℤ)
  currCtxt : ℤ
  prevCtxt : ℤ
  prevDisk : List (String × DiskSnap)
  prevIrq : List (String × IrqSnap)
  prevVmstat : List (String × ℤ)
  prevTime : ℚ
  lastSlow : ℚ
  lastProcScan : ℚ
  trackedPids : List (ℕ × String)
  prevProc : List (ℕ × ProcStats)
  sampleCount : ℕ
  irqSampleCount : ℕ
  statsCpu : List (CpuKey × CpuPcts)
  statsIo : List (String × DiskRates)
  statsMem : List MemRow
deriving DecidableEq

/-- Input of the per-process block: the rescan result and the per-PID
counter reads. -/
structure ProcInput where
  scan : List (ℕ × String)
  read : ℕ → Option ProcStats

/-- One loop iteration of readings.  Each source reading is an Except:
error models an exception raised inside the corresponding try block. -/
structure TickInput where
  nowMono : ℚ
  ts : ℚ
  cpu : Except Unit (List (CpuKey × List ℤ) × ℤ)
  disk : Except Unit (List (String × DiskSnap))
  mem : Except Unit (List (String × ℤ))
  irq : Except Unit (List (String × IrqSnap))
  vram : Except Unit String
  vmstat : Except Unit (List (String × ℤ))
  psi : Except Unit PsiData
  freq : Except Unit (List ℚ)
  proc : Except Unit ProcInput

/-- Rows and log lines emitted by one loop iteration. -/
structure TickOutput where
  cpuRows : List (ℚ × CpuKey × CpuPcts)
  ioRows : List (ℚ × String × DiskRates)
  memRow : Option (ℚ × MemRow)
  irqRows : List (ℚ × String × List ℚ × String)
  vramRow : Option (ℚ × String)
  vmstatRow : Option (ℚ × VmstatRow)
  psiRow : Option (ℚ × PsiData)
  freqRow : Option (ℚ × List ℚ)
  procRows : List ProcRow
  logs : List String
deriving DecidableEq

/-- The output of a dropped or empty tick. -/
def emptyOutput : TickOutput :=
  { cpuRows := [], ioRows := [], memRow := none, irqRows := [],
    vramRow := none, vmstatRow := none, psiRow := none, freqRow := none,
    procRows := [], logs := [] }

/-- Rescan cadence PROC_SCAN_INTERVAL. -/
def procScanInterval : ℚ := 5

/-- CPU try block of collect: on success write per-core rows, append
per-core statistics and advance the prev snapshot; the parsed context
switch counter is stored before the delta computation, as in the source,
so it advances even when the delta raises. -/
def cpu_block (s : MonState) (ts : ℚ)
    (r : Except Unit (List (CpuKey × List ℤ) × ℤ)) :
    MonState × List (ℚ × CpuKey × CpuPcts) × List String :=
  match r with
  | .error _ => (s, [], ["CPU sample failed"])
  | .ok cc =>
    let s1 := { s with currCtxt := cc.2 }
    match cpu_delta s.prevCpu cc.1 with
    | none => (s1, [], ["CPU sample failed"])
    | some cd =>
      ({ s1 with prevCpu := cc.1, statsCpu := s1.statsCpu ++ cd },
       cd.map fun kv => (ts, kv.1, kv.2), [])

/-- Disk IO try block of collect. -/
def disk_block (s : MonState) (ts dt : ℚ)
    (r : Except Unit (List (String × DiskSnap))) :
    MonState × List (ℚ × String × DiskRates) × List String :=
  match r with
  | .error _ => (s, [], ["IO sample failed"])
  | .ok cdisk =>
    let dd := diskstat_delta s.prevDisk cdisk dt
    ({ s with prevDisk := cdisk, statsIo := s.statsIo ++ dd },
     dd.map fun kv => (ts, kv.1, kv.2), [])

/-- Memory try block of collect. -/
def mem_block (s : MonState) (ts : ℚ) (r : Except Unit (List (String × ℤ))) :
    MonState × Option (ℚ × MemRow) × List String :=
  match r with
  | .error _ => (s, none, ["Memory sample failed"])
  | .ok mi =>
    match mem_compute mi with
    | none => (s, none, ["Memory sample failed"])
    | some mr => ({ s with statsMem := s.statsMem ++ [mr] }, some (ts, mr), [])

/-- Interrupts try block of collect. -/
def irq_block (numCpus : ℕ) (s : MonState) (ts slowDt : ℚ)
    (r : Except Unit (List (String × IrqSnap))) :
    MonState × List (ℚ × String × List ℚ × String) × List String :=
  match r with
  | .error _ => (s, [], ["IRQ sample failed"])
  | .ok cirq =>
    let idelta := interrupt_delta s.prevIrq cirq numCpus
    let rows := idelta.map fun kv =>
      (ts, kv.1, kv.2.1.map (fun x => (x : ℚ) / slowDt), kv.2.2)
    ({ s with prevIrq := cirq, irqSampleCount := s.irqSampleCount + 1 },
     rows, [])

/-- VRAM try block of collect: an empty string from get_vram writes no
row. -/
def vram_block (ts : ℚ) (r : Except Unit String) :
    Option (ℚ × String) × List String :=
  match r with
  | .error _ => (none, ["VRAM sample failed"])
  | .ok v => (if v = "" then none else some (ts, v), [])

/-- Vmstat try block of collect: uses the context switch counter parsed
by the CPU block of this or an earlier tick. -/
def vmstat_block (s : MonState) (ts slowDt : ℚ)
    (r : Except Unit (List (String × ℤ))) :
    MonState × Option (ℚ × VmstatRow) × List String :=
  match r with
  | .error _ => (s, none, ["vmstat sample failed"])
  | .ok cv =>
    let row := vmstat_delta s.prevVmstat cv s.prevCtxt s.currCtxt slowDt
    ({ s with prevVmstat := cv, prevCtxt := s.currCtxt }, some (ts, row), [])

/-- PSI try block of collect. -/
def psi_block (ts : ℚ) (r : Except Unit PsiData) :
    Option (ℚ × PsiData) × List String :=
  match r with
  | .error _ => (none, ["PSI sample failed"])
  | .ok p => (some (ts, p), [])

/-- CPU frequency try block of collect. -/
def freq_block (ts : ℚ) (r : Except Unit (List ℚ)) :
    Option (ℚ × List ℚ) × List String :=
  match r with
  | .error _ => (none, ["CPU freq sample failed"])
  | .ok fs => (some (ts, fs), [])

/-- Per-process try block of collect: rescan when due, then the per-PID
loop. -/
def proc_block (clkTck : ℚ) (s : MonState) (ts nowMono slowDt : ℚ)
    (r : Except Unit ProcInput) :
    MonState × List ProcRow × List String :=
  match r with
  | .error _ => (s, [], ["Process tracking failed"])
  | .ok pin =>
    let scanDue := procScanInterval ≤ nowMono - s.lastProcScan
    let tracked := if scanDue then pin.scan else s.trackedPids
    let lastScan := if scanDue then nowMono else s.lastProcScan
    let r := proc_tick tracked s.prevProc pin.read ts slowDt clkTck
    ({ s with trackedPids := r.tracked, prevProc := r.prevProc,
              lastProcScan := lastScan }, r.rows, [])

/-- One iteration of the collect loop after the sleep: a tick whose
elapsed monotonic time is below 0.05 s is dropped outright; otherwise
the fast-tier blocks run, then the slow-tier blocks once a second of
slow elapsed time has accumulated, each block isolated as in the
source. -/
def collect_step (numCpus : ℕ) (clkTck : ℚ) (s : MonState) (inp : TickInput) :
    MonState × TickOutput :=
  let dt := inp.nowMono - s.prevTime
  if dt < 1/20 then (s, emptyOutput)
  else
    let c1 := cpu_block s inp.ts inp.cpu
    let c2 := disk_block c1.1 inp.ts dt inp.disk
    let c3 := mem_block c2.1 inp.ts inp.mem
    let slowDt := inp.nowMono - s.lastSlow
    let r9 :=
      if 1 ≤ slowDt then
        let c4 := irq_block numCpus c3.1 inp.ts slowDt inp.irq
        let c5 := vram_block inp.ts inp.vram
        let c6 := vmstat_block c4.1 inp.ts slowDt inp.vmstat
        let c7 := psi_block inp.ts inp.psi
        let c8 := freq_block inp.ts inp.freq
        let c9 := proc_block clkTck c6.1 inp.ts inp.nowMono slowDt inp.proc
        ({ c9.1 with lastSlow := inp.nowMono },
         { cpuRows := c1.2.1, ioRows := c2.2.1, memRow := c3.2.1,
           irqRows := c4.2.1, vramRow := c5.1, vmstatRow := c6.2.1,
           psiRow := c7.1, freqRow := c8.1, procRows := c9.2.1,
           logs := c1.2.2 ++ c2.2.2 ++ c3.2.2 ++ c4.2.2 ++ c5.2 ++ c6.2.2
                   ++ c7.2 ++ c8.2 ++ c9.2.2 })
      else
        (c3.1,
         { cpuRows := c1.2.1, ioRows := c2.2.1, memRow := c3.2.1,
           irqRows := [], vramRow := none, vmstatRow := none,
           psiRow := none, freqRow := none, procRows := [],
           logs := c1.2.2 ++ c2.2.2 ++ c3.2.2 })
    ({ r9.1 with prevTime := inp.nowMono, sampleCount := r9.1.sampleCount + 1 },
     r9.2)

-- ── Sample data shared by several witnesses ─────────────────────────────

/-- A concrete loop state used by witnesses. -/
def mon0 : MonState :=
  { prevCpu := [(CpuKey.all, [1, 2, 3, 4, 5, 6, 7, 8, 9, 10])],
    currCtxt := 0, prevCtxt := 0,
    prevDisk := [("nvme0n1", ⟨0, 0, 0, 0, 0, 0, 0, 0⟩)],
    prevIrq := [], prevVmstat := [],
    prevTime := 100, lastSlow := 100, lastProcScan := 0,
    trackedPids := [], prevProc := [],
    sampleCount := 0, irqSampleCount := 0,
    statsCpu := [], statsIo := [], statsMem := [] }

/-- A concrete tick input arriving 0.01 s after the previous tick. -/
def tickShort : TickInput :=
  { nowMono := 100 + 1/100, ts := 1000,
    cpu := .ok ([(CpuKey.all, [2, 2, 3, 4, 5, 6, 7, 8, 9, 10])], 5),
    disk := .ok [("nvme0n1", ⟨1, 8, 1, 1, 8, 1, 0, 10⟩)],
    mem := .ok [], irq := .ok [], vram := .ok "",
    vmstat := .ok [], psi := .error (), freq := .ok [], proc := .error () }

/-- A concrete accepted tick one second after the previous one, with
failing PSI and process readings. -/
def tickLong : TickInput :=
  { nowMono := 101, ts := 1000,
    cpu := .ok ([(CpuKey.all, [2, 2, 3, 4, 5, 6, 7, 8, 9, 10])], 5),
    disk := .ok [("nvme0n1", ⟨1, 8, 1, 1, 8, 1, 0, 10⟩)],
    mem := .ok [], irq := .ok [], vram := .ok "",
    vmstat := .ok [], psi := .error (), freq := .ok [], proc := .error () }

/-- List of the rationals 1 to 21 in increasing order. -/
def lst21 : List ℚ :=
  [1, 2, 3, 4, 5, 6, 7, 8, 9, 10, 11, 12, 13, 14, 15, 16, 17, 18, 19, 20, 21]

/-- List of the rationals 1 to 10 in increasing order. -/
def lst10 : List ℚ := [1, 2, 3, 4, 5, 6, 7, 8, 9, 10]

/-- A concrete previous reading used by the C9 witness. -/
def procStats0 : ProcStats :=
  { utime := 10, stime := 5, num_threads := 3,
    read_bytes := 4096, write_bytes := 2048, rss_kb := 1024 }

/-- Absence of a PID from the per-process accumulator: it is not
tracked, holds no stored previous reading, and owns no emitted row. -/
def ProcNoPid (pid : ℕ) (acc : ProcAcc) : Prop :=
  pid ∉ acc.tracked.map Prod.fst ∧ alookup acc.prevProc pid = none ∧
    ∀ row ∈ acc.rows, row.pid ≠ pid

end Sysmon

namespace Sysmon

/-! Theorems.  Each claim of the specification is settled by exactly one
theorem below; shared helper lemmas precede them. -/

/-- C1: a sampling-loop iteration whose monotonic elapsed time since the
previous accepted tick is below 0.05 s is dropped entirely: the state,
including every previous snapshot, every accumulated statistic and the
previous-tick timestamp base, is returned unchanged and no row or log
line is emitted on any stream. -/
theorem short_tick_is_noop (numCpus : ℕ) (clkTck : ℚ) (s : MonState)
    (inp : TickInput) (h : inp.nowMono - s.prevTime < 1/20) :
    collect_step numCpus clkTck s inp = (s, emptyOutput) := by
  simp only [collect_step]
  rw [if_pos h]

/-- Witness for C1 at a concrete state and a tick 0.01 s after the
previous one. -/
theorem short_tick_is_noop_witness :
    tickShort.nowMono - mon0.prevTime < 1/20 ∧
    collect_step 2 100 mon0 tickShort = (mon0, emptyOutput) :=
  ⟨by norm_num [tickShort, mon0],
   short_tick_is_noop 2 100 mon0 tickShort (by norm_num [tickShort, mon0])⟩

/-- C2: while the direct NVML binding is active, a query failure
increments the consecutive-failure counter and a success resets it to 0;
the third consecutive failure performs the switch to the subprocess
path; and once the direct binding is off, no later event, including a
subprocess-path failure, ever turns it back on. -/
theorem gpu_one_way_failover (s : GpuState) (h : s.useNvml = true) :
    (∀ smi, get_vram_step s .success smi = { useNvml := true, failCount := 0 }) ∧
    (∀ smi, s.failCount + 1 < NVML_FAIL_MAX →
      get_vram_step s .failure smi
        = { useNvml := true, failCount := s.failCount + 1 }) ∧
    (∀ smi, NVML_FAIL_MAX ≤ s.failCount + 1 →
      get_vram_step s .failure smi
        = { useNvml := false, failCount := s.failCount + 1 }) ∧
    (s.failCount = 0 → ∀ a b c,
      (get_vram_run s [(.failure, a), (.failure, b), (.failure, c)]).useNvml
        = false) ∧
    (∀ t : GpuState, t.useNvml = false → ∀ evs,
      (get_vram_run t evs).useNvml = false) := by
  have hoff : ∀ t : GpuState, t.useNvml = false → ∀ evs,
      (get_vram_run t evs).useNvml = false := by
    intro t ht evs
    induction evs generalizing t with
    | nil => simpa [get_vram_run] using ht
    | cons e rest ih =>
      have hstep : get_vram_step t e.1 e.2 = t := by
        simp [get_vram_step, ht]
      have hrun : get_vram_run t (e :: rest)
          = get_vram_run (get_vram_step t e.1 e.2) rest := rfl
      rw [hrun, hstep]
      exact ih t ht
  refine ⟨?_, ?_, ?_, ?_, hoff⟩
  · intro smi
    simp [get_vram_step, h]
  · intro smi hlt
    simp only [get_vram_step, h, if_true]
    simp only [NVML_FAIL_MAX] at hlt ⊢
    rw [if_neg (by omega)]
  · intro smi hge
    simp only [get_vram_step, h, if_true]
    simp only [NVML_FAIL_MAX] at hge ⊢
    rw [if_pos (by omega)]
  · intro h0 a b c
    obtain ⟨u, n⟩ := s
    simp only at h h0
    subst h h0
    simp [get_vram_run, get_vram_step, NVML_FAIL_MAX]

/-- Witness for C2: from the initial direct-binding state, three
consecutive failures switch the backend off the direct binding, and a
later subprocess failure does not revert it. -/
theorem gpu_one_way_failover_witness :
    (GpuState.mk true 0).useNvml = true ∧
    (get_vram_run ⟨true, 0⟩
        [(.failure, .success), (.failure, .success), (.failure, .success)]).useNvml
      = false ∧
    (get_vram_run
        (get_vram_run ⟨true, 0⟩
          [(.failure, .success), (.failure, .success), (.failure, .success)])
        [(.success, .failure)]).useNvml = false := by
  refine ⟨rfl, ?_, ?_⟩
  · exact (gpu_one_way_failover ⟨true, 0⟩ rfl).2.2.2.1 rfl _ _ _
  · exact (gpu_one_way_failover ⟨true, 0⟩ rfl).2.2.2.2 _
      ((gpu_one_way_failover ⟨true, 0⟩ rfl).2.2.2.1 rfl _ _ _) _

/-- C3: for a core key present in both snapshots whose summed tick delta
is 0, every derived percentage is exactly 0, hence in particular none is
negative and none is a division artifact. -/
theorem cpu_delta_zero_total (p c : List ℤ)
    (hlen : ¬ p.length < c.length) (h : (tickDeltas p c).sum = 0) :
    cpu_core_delta p c = some cpuZeroPcts ∧
    cpuZeroPcts.user = 0 ∧ cpuZeroPcts.sys = 0 ∧ cpuZeroPcts.iowait = 0 ∧
    cpuZeroPcts.irq = 0 ∧ cpuZeroPcts.softirq = 0 ∧ cpuZeroPcts.idle = 0 ∧
    cpuZeroPcts.steal = 0 ∧ cpuZeroPcts.guest = 0 := by
  refine ⟨?_, rfl, rfl, rfl, rfl, rfl, rfl, rfl, rfl⟩
  simp [cpu_core_delta, hlen, h]

/-- Witness for C3: individual deltas 2 and -2 sum to 0. -/
theorem cpu_delta_zero_total_witness :
    ¬ ([5, 5] : List ℤ).length < ([7, 3] : List ℤ).length ∧
    (tickDeltas [5, 5] [7, 3]).sum = 0 ∧
    cpu_core_delta [5, 5] [7, 3] = some cpuZeroPcts :=
  ⟨by decide, by decide,
   (cpu_delta_zero_total [5, 5] [7, 3] (by decide) (by decide)).1⟩

/-- C4 counterexample: at a weighted-io-ms counter that decreases by
1000 between the two snapshots, with dt = 1 s (well above the 0.05 s
floor), the utilization is -100, outside the claimed interval [0, 100];
the source only caps the value from above. -/
theorem io_util_below_zero_cex :
    (diskstat_delta_dev ⟨0, 0, 0, 0, 0, 0, 0, 1000⟩
      ⟨0, 0, 0, 0, 0, 0, 0, 0⟩ 1).io_util_pct = -100 ∧
    ¬ (0 ≤ (diskstat_delta_dev ⟨0, 0, 0, 0, 0, 0, 0, 1000⟩
            ⟨0, 0, 0, 0, 0, 0, 0, 0⟩ 1).io_util_pct ∧
        (diskstat_delta_dev ⟨0, 0, 0, 0, 0, 0, 0, 1000⟩
            ⟨0, 0, 0, 0, 0, 0, 0, 0⟩ 1).io_util_pct ≤ 100) := by
  have h1 : (diskstat_delta_dev ⟨0, 0, 0, 0, 0, 0, 0, 1000⟩
      ⟨0, 0, 0, 0, 0, 0, 0, 0⟩ 1).io_util_pct = -100 := by
    norm_num [diskstat_delta_dev, min_def]
  rw [h1]
  norm_num

/-- C4 amended: for every pair of snapshots and dt at or above the
floor, the utilization never exceeds 100; and whenever the weighted-io
delta is nonnegative (every run without a counter reset) it lies in the
closed interval [0, 100]. -/
theorem io_util_capped (p c : DiskSnap) (dt : ℚ) (h : 1/20 ≤ dt) :
    (diskstat_delta_dev p c dt).io_util_pct ≤ 100 ∧
    (0 ≤ c.weighted_ms_io - p.weighted_ms_io →
      0 ≤ (diskstat_delta_dev p c dt).io_util_pct ∧
      (diskstat_delta_dev p c dt).io_util_pct ≤ 100) := by
  have hdt : (0 : ℚ) < dt := lt_of_lt_of_le (by norm_num) h
  simp only [diskstat_delta_dev]
  refine ⟨min_le_right _ _, fun hw => ⟨?_, min_le_right _ _⟩⟩
  have hw' : (0 : ℚ) ≤ ((c.weighted_ms_io - p.weighted_ms_io : ℤ) : ℚ) := by
    exact_mod_cast hw
  have hX : (0 : ℚ) ≤ ((c.weighted_ms_io - p.weighted_ms_io : ℤ) : ℚ)
      / (dt * 1000) * 100 := by positivity
  exact le_min hX (by norm_num)

/-- Witness for C4 amended, at a nonnegative weighted delta and dt 1. -/
theorem io_util_capped_witness :
    (1/20 : ℚ) ≤ 1 ∧
    (0 : ℤ) ≤ (DiskSnap.mk 0 0 0 0 0 0 0 500).weighted_ms_io
      - (DiskSnap.mk 0 0 0 0 0 0 0 0).weighted_ms_io ∧
    0 ≤ (diskstat_delta_dev ⟨0, 0, 0, 0, 0, 0, 0, 0⟩
          ⟨0, 0, 0, 0, 0, 0, 0, 500⟩ 1).io_util_pct ∧
    (diskstat_delta_dev ⟨0, 0, 0, 0, 0, 0, 0, 0⟩
          ⟨0, 0, 0, 0, 0, 0, 0, 500⟩ 1).io_util_pct ≤ 100 :=
  ⟨by norm_num, by decide,
   ((io_util_capped ⟨0, 0, 0, 0, 0, 0, 0, 0⟩ ⟨0, 0, 0, 0, 0, 0, 0, 500⟩ 1
      (by norm_num)).2 (by decide)).1,
   ((io_util_capped ⟨0, 0, 0, 0, 0, 0, 0, 0⟩ ⟨0, 0, 0, 0, 0, 0, 0, 500⟩ 1
      (by norm_num)).2 (by decide)).2⟩

/-- C5: throughput is the sector delta times the fixed 512-byte sector
size, scaled to MB and divided by dt; average latency is the ms delta
over the operation delta when that delta is positive and exactly 0 when
it is 0; and a write-sector delta of 2048 over 1 s gives exactly
1 MB/s. -/
theorem disk_rate_formulas (p c : DiskSnap) (dt : ℚ) (h : 1/20 ≤ dt) :
    (diskstat_delta_dev p c dt).rMB_per_s
      = ((c.sectors_read - p.sectors_read : ℤ) : ℚ) * 512 / 1024 / 1024 / dt ∧
    (diskstat_delta_dev p c dt).wMB_per_s
      = ((c.sectors_written - p.sectors_written : ℤ) : ℚ) * 512 / 1024 / 1024 / dt ∧
    (0 < c.reads - p.reads →
      (diskstat_delta_dev p c dt).avg_r_lat_ms
        = ((c.ms_reading - p.ms_reading : ℤ) : ℚ) / ((c.reads - p.reads : ℤ) : ℚ)) ∧
    (c.reads - p.reads = 0 → (diskstat_delta_dev p c dt).avg_r_lat_ms = 0) ∧
    (0 < c.writes - p.writes →
      (diskstat_delta_dev p c dt).avg_w_lat_ms
        = ((c.ms_writing - p.ms_writing : ℤ) : ℚ) / ((c.writes - p.writes : ℤ) : ℚ)) ∧
    (c.writes - p.writes = 0 → (diskstat_delta_dev p c dt).avg_w_lat_ms = 0) ∧
    (c.sectors_written - p.sectors_written = 2048 → dt = 1 →
      (diskstat_delta_dev p c dt).wMB_per_s = 1) := by
  simp only [diskstat_delta_dev]
  refine ⟨trivial, trivial, ?_, ?_, ?_, ?_, ?_⟩
  · intro hr
    rw [if_pos hr]
  · intro hr
    rw [if_neg (by omega)]
  · intro hw
    rw [if_pos hw]
  · intro hw
    rw [if_neg (by omega)]
  · intro hsw hdt
    rw [hsw, hdt]
    norm_num

/-- Helper: a list is empty in the Boolean sense iff it is nil. -/
theorem list_isEmpty_iff {α : Type} (l : List α) : l.isEmpty = true ↔ l = [] := by
  cases l <;> simp

/-- Helper: membership in the window filter of the correlator. -/
theorem mem_nearbyEvents (events : List XpEvent) (ts w : ℚ) (e : XpEvent) :
    e ∈ nearbyEvents events ts w ↔ e ∈ events ∧ |e.ts - ts| ≤ w := by
  simp [nearbyEvents, List.mem_filter]

/-- C6: a hit is produced for a row exactly when the row value is at or
above the threshold and at least one event lies within the symmetric
window, carrying precisely the in-window events; and concretely a row at
t 100 with value 60 and threshold 50 is kept for an event at t 101 under
window 2 while the event at t 105 is excluded from its nearby set. -/
theorem correlate_hit_iff :
    (∀ (rows : List CsvRow) (events : List XpEvent) (t w : ℚ) (hit : CorrHit),
      hit ∈ correlate_events rows events (some t) w ↔
        ∃ row, row ∈ rows ∧ t ≤ row.val ∧
          nearbyEvents events row.ts w ≠ [] ∧
          hit = { ts := row.ts, val := row.val,
                  nearby := nearbyEvents events row.ts w }) ∧
    (∀ (events : List XpEvent) (ts w : ℚ) (e : XpEvent),
      e ∈ nearbyEvents events ts w ↔ e ∈ events ∧ |e.ts - ts| ≤ w) ∧
    correlate_events [{ ts := 100, val := 60 }]
        [{ ts := 101, cat := "load-event", msg := "m1" },
         { ts := 105, cat := "load-event", msg := "m2" }] (some 50) 2
      = [{ ts := 100, val := 60,
           nearby := [{ ts := 101, cat := "load-event", msg := "m1" }] }] := by
  refine ⟨?_, mem_nearbyEvents, ?_⟩
  · intro rows events t w hit
    unfold correlate_events
    by_cases hev : events.isEmpty
    · rw [if_pos hev]
      have hnil : events = [] := (list_isEmpty_iff events).mp hev
      subst hnil
      simp [nearbyEvents]
    · rw [if_neg hev, List.mem_filterMap]
      constructor
      · rintro ⟨row, hrow, hf⟩
        by_cases hb : belowThreshold (some t) row.val
        · rw [if_pos hb] at hf
          exact absurd hf (by simp)
        · rw [if_neg hb] at hf
          by_cases hn : (nearbyEvents events row.ts w).isEmpty
          · rw [if_pos hn] at hf
            exact absurd hf (by simp)
          · rw [if_neg hn] at hf
            refine ⟨row, hrow, ?_, ?_, ?_⟩
            · simpa [belowThreshold, not_lt] using hb
            · intro hnil
              exact hn ((list_isEmpty_iff _).mpr hnil)
            · injection hf with hf
              exact hf.symm
      · rintro ⟨row, hrow, hle, hne, rfl⟩
        refine ⟨row, hrow, ?_⟩
        rw [if_neg (by simpa [belowThreshold, not_lt] using hle),
            if_neg (fun hc => hne ((list_isEmpty_iff _).mp hc))]
  · simp only [correlate_events, belowThreshold, nearbyEvents, List.isEmpty_cons,
      Bool.false_eq_true, if_false, List.filterMap_cons, List.filterMap_nil,
      List.filter_cons, List.filter_nil]
    norm_num

/-- Helper: a start value never exceeds a max fold over it. -/
theorem init_le_foldl_max (l : List ℚ) : ∀ a : ℚ, a ≤ l.foldl max a := by
  induction l with
  | nil => intro a; exact le_refl a
  | cons b t ih =>
    intro a
    exact le_trans (le_max_left a b) (ih (max a b))

/-- Helper: every element is bounded by the max fold. -/
theorem le_foldl_max (l : List ℚ) : ∀ (a x : ℚ), x ∈ l → x ≤ l.foldl max a := by
  induction l with
  | nil => intro a x hx; cases hx
  | cons b t ih =>
    intro a x hx
    rcases List.mem_cons.mp hx with h | h
    · subst h
      exact le_trans (le_max_right a x) (init_le_foldl_max t (max a x))
    · exact ih (max a b) x h

/-- Helper: the max fold returns its start value or a list element. -/
theorem foldl_max_mem (l : List ℚ) :
    ∀ a : ℚ, l.foldl max a = a ∨ l.foldl max a ∈ l := by
  induction l with
  | nil => intro a; exact Or.inl rfl
  | cons b t ih =>
    intro a
    rcases ih (max a b) with h | h
    · rcases max_cases a b with ⟨he, _⟩ | ⟨he, _⟩
      · left
        rw [List.foldl_cons, h, he]
      · right
        rw [List.foldl_cons, h, he]
        exact List.mem_cons_self b t
    · right
      exact List.mem_cons_of_mem b h

/-- Helper: the Python max of a nonempty list is an element of it. -/
theorem listMax_mem (l : List ℚ) (h : l ≠ []) : listMax l ∈ l := by
  cases l with
  | nil => exact absurd rfl h
  | cons b t =>
    rcases foldl_max_mem (b :: t) b with h1 | h1
    · unfold listMax
      simp only [List.headD_cons]
      rw [h1]
      exact List.mem_cons_self b t
    · unfold listMax
      simpa using h1

/-- Helper: the Python max bounds every element. -/
theorem le_listMax (l : List ℚ) (x : ℚ) (hx : x ∈ l) : x ≤ listMax l := by
  cases l with
  | nil => cases hx
  | cons b t =>
    unfold listMax
    simp only [List.headD_cons]
    exact le_foldl_max (b :: t) b x hx

/-- Helper: the nearest-rank index is always a valid position. -/
theorem p95Index_lt (n : ℕ) (h : 1 ≤ n) : p95Index n < n := by
  unfold p95Index
  exact Nat.div_lt_of_lt_mul (by omega)

/-- C8: for lists of 2 to 20 values fmt3 reports the maximum as the
95th percentile, with listMax being a list element that bounds every
element; above 20 values it reports the sorted-list element at index
int of n times 0.95, an index always in range; and that index is 19 for
n 21. -/
theorem p95_nearest_rank (lst : List ℚ) (h2 : 2 ≤ lst.length) :
    (lst.length ≤ 20 →
      fmt3_p95 lst = some (listMax lst) ∧ listMax lst ∈ lst ∧
      ∀ x ∈ lst, x ≤ listMax lst) ∧
    (20 < lst.length →
      fmt3_p95 lst
        = some ((List.insertionSort (· ≤ ·) lst).getD (p95Index lst.length) 0) ∧
      p95Index lst.length < (List.insertionSort (· ≤ ·) lst).length) ∧
    p95Index 21 = 19 := by
  have hne : lst ≠ [] := by
    intro hn
    rw [hn] at h2
    simp at h2
  refine ⟨?_, ?_, by norm_num [p95Index]⟩
  · intro hle
    refine ⟨?_, listMax_mem lst hne, fun x hx => le_listMax lst x hx⟩
    simp only [fmt3_p95, fmt3]
    rw [if_neg (by omega)]
    simp only [Option.map_some']
    rw [if_neg (by omega)]
  · intro hgt
    constructor
    · simp only [fmt3_p95, fmt3]
      rw [if_neg (by omega)]
      simp only [Option.map_some']
      rw [if_pos hgt]
    · rw [List.length_insertionSort]
      exact p95Index_lt lst.length (by omega)

/-- C10: for 10-field tick vectors with nonzero summed delta, the eight
reported percentages sum to exactly 100 in exact arithmetic: user
combines fields 0 and 1, guest combines fields 8 and 9, and every field
contributes to exactly one percentage. -/
theorem cpu_pcts_sum_100
    (p0 p1 p2 p3 p4 p5 p6 p7 p8 p9 c0 c1 c2 c3 c4 c5 c6 c7 c8 c9 : ℤ)
    (h : (tickDeltas [p0, p1, p2, p3, p4, p5, p6, p7, p8, p9]
          [c0, c1, c2, c3, c4, c5, c6, c7, c8, c9]).sum ≠ 0) :
    (cpu_core_delta [p0, p1, p2, p3, p4, p5, p6, p7, p8, p9]
        [c0, c1, c2, c3, c4, c5, c6, c7, c8, c9]).map
      (fun r => r.user + r.sys + r.idle + r.iowait + r.irq + r.softirq
        + r.steal + r.guest) = some 100 := by
  have hd : tickDeltas [p0, p1, p2, p3, p4, p5, p6, p7, p8, p9]
        [c0, c1, c2, c3, c4, c5, c6, c7, c8, c9]
      = [c0 - p0, c1 - p1, c2 - p2, c3 - p3, c4 - p4, c5 - p5, c6 - p6,
         c7 - p7, c8 - p8, c9 - p9] := rfl
  rw [hd] at h
  simp only [cpu_core_delta, hd]
  rw [if_neg (by simp), if_neg h, if_neg (by simp), if_pos (by simp)]
  simp only [Option.map_some', Option.some.injEq]
  have e0 : ([c0 - p0, c1 - p1, c2 - p2, c3 - p3, c4 - p4, c5 - p5, c6 - p6,
      c7 - p7, c8 - p8, c9 - p9] : List ℤ).getD 0 0 = c0 - p0 := rfl
  have e1 : ([c0 - p0, c1 - p1, c2 - p2, c3 - p3, c4 - p4, c5 - p5, c6 - p6,
      c7 - p7, c8 - p8, c9 - p9] : List ℤ).getD 1 0 = c1 - p1 := rfl
  have e2 : ([c0 - p0, c1 - p1, c2 - p2, c3 - p3, c4 - p4, c5 - p5, c6 - p6,
      c7 - p7, c8 - p8, c9 - p9] : List ℤ).getD 2 0 = c2 - p2 := rfl
  have e3 : ([c0 - p0, c1 - p1, c2 - p2, c3 - p3, c4 - p4, c5 - p5, c6 - p6,
      c7 - p7, c8 - p8, c9 - p9] : List ℤ).getD 3 0 = c3 - p3 := rfl
  have e4 : ([c0 - p0, c1 - p1, c2 - p2, c3 - p3, c4 - p4, c5 - p5, c6 - p6,
      c7 - p7, c8 - p8, c9 - p9] : List ℤ).getD 4 0 = c4 - p4 := rfl
  have e5 : ([c0 - p0, c1 - p1, c2 - p2, c3 - p3, c4 - p4, c5 - p5, c6 - p6,
      c7 - p7, c8 - p8, c9 - p9] : List ℤ).getD 5 0 = c5 - p5 := rfl
  have e6 : ([c0 - p0, c1 - p1, c2 - p2, c3 - p3, c4 - p4, c5 - p5, c6 - p6,
      c7 - p7, c8 - p8, c9 - p9] : List ℤ).getD 6 0 = c6 - p6 := rfl
  have e7 : ([c0 - p0, c1 - p1, c2 - p2, c3 - p3, c4 - p4, c5 - p5, c6 - p6,
      c7 - p7, c8 - p8, c9 - p9] : List ℤ).getD 7 0 = c7 - p7 := rfl
  have e8 : ([c0 - p0, c1 - p1, c2 - p2, c3 - p3, c4 - p4, c5 - p5, c6 - p6,
      c7 - p7, c8 - p8, c9 - p9] : List ℤ).getD 8 0 = c8 - p8 := rfl
  have e9 : ([c0 - p0, c1 - p1, c2 - p2, c3 - p3, c4 - p4, c5 - p5, c6 - p6,
      c7 - p7, c8 - p8, c9 - p9] : List ℤ).getD 9 0 = c9 - p9 := rfl
  have hs : ([c0 - p0, c1 - p1, c2 - p2, c3 - p3, c4 - p4, c5 - p5, c6 - p6,
      c7 - p7, c8 - p8, c9 - p9] : List ℤ).sum
      = c0 - p0 + (c1 - p1) + (c2 - p2) + (c3 - p3) + (c4 - p4) + (c5 - p5)
        + (c6 - p6) + (c7 - p7) + (c8 - p8) + (c9 - p9) := by
    simp [List.sum_cons, List.sum_nil]
    ring
  rw [hs] at h
  rw [e0, e1, e2, e3, e4, e5, e6, e7, e8, e9, hs]
  have hT : ((c0 - p0 + (c1 - p1) + (c2 - p2) + (c3 - p3) + (c4 - p4)
      + (c5 - p5) + (c6 - p6) + (c7 - p7) + (c8 - p8) + (c9 - p9) : ℤ) : ℚ)
      ≠ 0 := Int.cast_ne_zero.mpr h
  simp only [div_mul_eq_mul_div, div_add_div_same]
  rw [div_eq_iff hT]
  push_cast
  ring

/-- Witness for C8: 21 increasing values give the element at sorted
index 19, namely 20; 10 values give the max, namely 10. -/
theorem p95_nearest_rank_witness :
    2 ≤ lst21.length ∧ 20 < lst21.length ∧
    fmt3_p95 lst21
      = some ((List.insertionSort (· ≤ ·) lst21).getD (p95Index lst21.length) 0) ∧
    fmt3_p95 lst21 = some 20 ∧
    2 ≤ lst10.length ∧ lst10.length ≤ 20 ∧
    fmt3_p95 lst10 = some (listMax lst10) ∧
    fmt3_p95 lst10 = some 10 := by
  refine ⟨by decide, by decide, ?_, by decide, by decide, by decide, ?_, by decide⟩
  · exact ((p95_nearest_rank lst21 (by decide)).2.1 (by decide)).1
  · exact ((p95_nearest_rank lst10 (by decide)).1 (by decide)).1

/-- Witness for C5: one device, write-sector counter up by 2048 over
1 s, read counters constant. -/
theorem disk_rate_formulas_witness :
    (1/20 : ℚ) ≤ 1 ∧
    (DiskSnap.mk 0 0 0 3 2048 7 0 0).sectors_written
      - (DiskSnap.mk 0 0 0 0 0 0 0 0).sectors_written = 2048 ∧
    (diskstat_delta_dev ⟨0, 0, 0, 0, 0, 0, 0, 0⟩
        ⟨0, 0, 0, 3, 2048, 7, 0, 0⟩ 1).wMB_per_s = 1 :=
  ⟨by norm_num, by decide,
   ((disk_rate_formulas ⟨0, 0, 0, 0, 0, 0, 0, 0⟩ ⟨0, 0, 0, 3, 2048, 7, 0, 0⟩ 1
      (by norm_num)).2.2.2.2.2.2 (by decide) rfl)⟩

/-- Witness for C10 at prev vector all zero and curr vector 1 to 10. -/
theorem cpu_pcts_sum_100_witness :
    (tickDeltas [0, 0, 0, 0, 0, 0, 0, 0, 0, 0]
      [1, 2, 3, 4, 5, 6, 7, 8, 9, 10]).sum ≠ 0 ∧
    (cpu_core_delta [0, 0, 0, 0, 0, 0, 0, 0, 0, 0]
        [1, 2, 3, 4, 5, 6, 7, 8, 9, 10]).map
      (fun r => r.user + r.sys + r.idle + r.iowait + r.irq + r.softirq
        + r.steal + r.guest) = some 100 :=
  ⟨by decide,
   cpu_pcts_sum_100 0 0 0 0 0 0 0 0 0 0 1 2 3 4 5 6 7 8 9 10 (by decide)⟩

-- ── Helper lemmas on association lists, for the process tracker ─────────

/-- Helper: a lookup misses exactly the absent keys. -/
theorem alookup_eq_none_iff {α β : Type} [DecidableEq α]
    (l : List (α × β)) (k : α) :
    alookup l k = none ↔ k ∉ l.map Prod.fst := by
  induction l with
  | nil => simp [alookup]
  | cons ab t ih =>
    simp only [alookup, List.map_cons, List.mem_cons]
    by_cases h1 : ab.1 = k
    · simp [h1]
    · simp only [if_neg h1, ih]
      constructor
      · intro hn hor
        rcases hor with hor | hor
        · exact h1 hor.symm
        · exact hn hor
      · intro hn
        exact fun hm => hn (Or.inr hm)

/-- Helper: erasing a key removes it from the key set. -/
theorem aerase_self_not_mem {α β : Type} [DecidableEq α]
    (l : List (α × β)) (k : α) : k ∉ (aerase l k).map Prod.fst := by
  intro hmem
  rcases List.mem_map.mp hmem with ⟨ab, hab, habk⟩
  have := List.of_mem_filter hab
  rw [decide_eq_true_eq] at this
  exact this habk

/-- Helper: erasing only shrinks the key set. -/
theorem keys_aerase_subset {α β : Type} [DecidableEq α]
    (l : List (α × β)) (k pid : α)
    (h : pid ∈ (aerase l k).map Prod.fst) : pid ∈ l.map Prod.fst := by
  rcases List.mem_map.mp h with ⟨ab, hab, habk⟩
  exact List.mem_map.mpr ⟨ab, List.mem_of_mem_filter hab, habk⟩

/-- Helper: an update touches no key but its own. -/
theorem keys_aupdate {α β : Type} [DecidableEq α]
    (l : List (α × β)) (k : α) (v : β) (pid : α)
    (h : pid ∈ (aupdate l k v).map Prod.fst) :
    pid ∈ l.map Prod.fst ∨ pid = k := by
  unfold aupdate at h
  split at h
  · rcases List.mem_map.mp h with ⟨ab, hab, habk⟩
    rcases List.mem_map.mp hab with ⟨ab0, hab0, hab0e⟩
    by_cases h1 : ab0.1 = k
    · rw [if_pos h1] at hab0e
      right
      rw [← habk, ← hab0e]
    · rw [if_neg h1] at hab0e
      left
      exact List.mem_map.mpr ⟨ab0, hab0, hab0e ▸ habk⟩
  · rw [List.map_append, List.mem_append] at h
    rcases h with h | h
    · exact Or.inl h
    · right
      simpa using h

/-- Helper: each loop iteration keeps a dead PID absent. -/
theorem proc_step_no_pid (read : ℕ → Option ProcStats) (ts dt ck : ℚ)
    (pid : ℕ) (hres : read pid = none) (acc : ProcAcc) (pn : ℕ × String)
    (h : ProcNoPid pid acc) :
    ProcNoPid pid (proc_step read ts dt ck acc pn) := by
  obtain ⟨ht, hp, hr⟩ := h
  unfold proc_step
  cases hread : read pn.1 with
  | none =>
    refine ⟨?_, ?_, hr⟩
    · intro hmem
      exact ht (keys_aerase_subset _ _ _ hmem)
    · rw [alookup_eq_none_iff]
      intro hmem
      exact ((alookup_eq_none_iff _ _).mp hp) (keys_aerase_subset _ _ _ hmem)
  | some ps =>
    have hne : pn.1 ≠ pid := by
      intro he
      rw [he, hres] at hread
      exact Option.noConfusion hread
    refine ⟨ht, ?_, ?_⟩
    · rw [alookup_eq_none_iff]
      intro hmem
      rcases keys_aupdate _ _ _ _ hmem with hm | hm
      · exact ((alookup_eq_none_iff _ _).mp hp) hm
      · exact hne hm.symm
    · cases halo : alookup acc.prevProc pn.1 with
      | none =>
        simp only [halo]
        exact hr
      | some pp =>
        simp only [halo]
        intro row hrow
        rcases List.mem_append.mp hrow with hm | hm
        · exact hr row hm
        · rcases List.mem_singleton.mp hm with rfl
          exact hne

/-- Helper: the loop never writes a row for a PID whose counters cannot
be read, and once the PID is absent from the accumulator it stays
absent. -/
theorem proc_fold_no_pid (read : ℕ → Option ProcStats) (ts dt ck : ℚ)
    (pid : ℕ) (hres : read pid = none) :
    ∀ (l : List (ℕ × String)) (acc : ProcAcc),
      (∀ row ∈ acc.rows, row.pid ≠ pid) →
      (pid ∈ l.map Prod.fst ∨
        (pid ∉ acc.tracked.map Prod.fst ∧ alookup acc.prevProc pid = none)) →
      ProcNoPid pid (l.foldl (proc_step read ts dt ck) acc) := by
  intro l
  induction l with
  | nil =>
    intro acc hrows hstart
    rcases hstart with h | h
    · cases h
    · exact ⟨h.1, h.2, hrows⟩
  | cons pn t ih =>
    intro acc hrows hstart
    rw [List.foldl_cons]
    have hrows2 : ∀ row ∈ (proc_step read ts dt ck acc pn).rows,
        row.pid ≠ pid := by
      unfold proc_step
      cases hread : read pn.1 with
      | none => exact hrows
      | some ps =>
        have hne : pn.1 ≠ pid := by
          intro he
          rw [he, hres] at hread
          exact Option.noConfusion hread
        cases halo : alookup acc.prevProc pn.1 with
        | none =>
          simp only [halo]
          exact hrows
        | some pp =>
          simp only [halo]
          intro row hrow
          rcases List.mem_append.mp hrow with hm | hm
          · exact hrows row hm
          · rcases List.mem_singleton.mp hm with rfl
            exact hne
    rcases hstart with hmem | hinv
    · rw [List.map_cons] at hmem
      rcases List.mem_cons.mp hmem with he | hmem2
      · -- this iteration is the dead PID itself: it is erased now
        have hpn : pn.1 = pid := he.symm
        apply ih _ hrows2
        right
        constructor
        · unfold proc_step
          rw [hpn, hres]
          exact aerase_self_not_mem _ _
        · unfold proc_step
          rw [hpn, hres]
          rw [alookup_eq_none_iff]
          exact aerase_self_not_mem _ _
      · apply ih _ hrows2
        left
        simpa using hmem2
    · have hstep := proc_step_no_pid read ts dt ck pid hres acc pn
        ⟨hinv.1, hinv.2, hrows⟩
      exact ih _ hrows2 (Or.inr ⟨hstep.1, hstep.2.1⟩)

/-- C9: a tracked PID whose counters can no longer be read is removed
from the tracked set with its stored previous reading discarded within
the same slow tick, before any rescan could intervene, and that tick
emits no row for it; moreover, from any tracker state without the PID,
as long as the dead PID stays unreadable and no rescan lists it again,
no later tick ever emits a row for it or resurrects its reading. -/
theorem dead_pid_removed (tracked : List (ℕ × String))
    (prevProc : List (ℕ × ProcStats)) (read : ℕ → Option ProcStats)
    (ts slowDt clkTck : ℚ) (pid : ℕ)
    (hmem : pid ∈ tracked.map Prod.fst) (hres : read pid = none) :
    (pid ∉ (proc_tick tracked prevProc read ts slowDt clkTck).tracked.map
        Prod.fst ∧
     alookup (proc_tick tracked prevProc read ts slowDt clkTck).prevProc pid
        = none ∧
     ∀ row ∈ (proc_tick tracked prevProc read ts slowDt clkTck).rows,
        row.pid ≠ pid) ∧
    (∀ st : List (ℕ × String) × List (ℕ × ProcStats),
      pid ∉ st.1.map Prod.fst → alookup st.2 pid = none →
      ∀ inps : List ProcTickIn,
        (∀ i ∈ inps, i.read pid = none) →
        (∀ i ∈ inps, ∀ sc, i.scan = some sc → pid ∉ sc.map Prod.fst) →
        pid ∉ (proc_run clkTck st inps).1.1.map Prod.fst ∧
        alookup (proc_run clkTck st inps).1.2 pid = none ∧
        ∀ row ∈ (proc_run clkTck st inps).2, row.pid ≠ pid) := by
  constructor
  · have h := proc_fold_no_pid read ts slowDt clkTck pid hres tracked
      { tracked := tracked, prevProc := prevProc, rows := [] }
      (by intro row hrow; cases hrow) (Or.inl hmem)
    exact ⟨h.1, h.2.1, h.2.2⟩
  · intro st hst1 hst2 inps
    induction inps generalizing st with
    | nil =>
      intro _ _
      exact ⟨hst1, hst2, by intro row hrow; cases hrow⟩
    | cons i rest ih =>
      intro hrd hsc
      have hires : i.read pid = none := hrd i (List.mem_cons_self i rest)
      have htr : pid ∉ (match i.scan with
          | some s => s
          | none => st.1).map Prod.fst := by
        cases hscan : i.scan with
        | none => exact hst1
        | some sc => exact hsc i (List.mem_cons_self i rest) sc hscan
      have hfold := proc_fold_no_pid i.read i.ts i.slowDt clkTck pid hires
        (match i.scan with | some s => s | none => st.1)
        { tracked := (match i.scan with | some s => s | none => st.1),
          prevProc := st.2, rows := [] }
        (by intro row hrow; cases hrow) (Or.inr ⟨htr, hst2⟩)
      have hrest := ih (proc_run_tick clkTck st i).1 hfold.1 hfold.2.1
        (fun j hj => hrd j (List.mem_cons_of_mem i hj))
        (fun j hj => hsc j (List.mem_cons_of_mem i hj))
      refine ⟨hrest.1, hrest.2.1, ?_⟩
      intro row hrow
      have hsplit : (proc_run clkTck st (i :: rest)).2
          = (proc_run_tick clkTck st i).2
            ++ (proc_run clkTck (proc_run_tick clkTck st i).1 rest).2 := rfl
      rw [hsplit] at hrow
      rcases List.mem_append.mp hrow with hm | hm
      · exact hfold.2.2 row hm
      · exact hrest.2.2 row hm

/-- Witness for C9: PID 7 is tracked with a stored reading, its read
fails, and the tick leaves it neither tracked nor stored nor written. -/
theorem dead_pid_removed_witness :
    (7 : ℕ) ∈ ([(7, "X-Plane")] : List (ℕ × String)).map Prod.fst ∧
    (fun _ : ℕ => (none : Option ProcStats)) 7 = none ∧
    7 ∉ (proc_tick [(7, "X-Plane")] [(7, procStats0)]
        (fun _ => none) 1 1 100).tracked.map Prod.fst ∧
    alookup (proc_tick [(7, "X-Plane")] [(7, procStats0)]
        (fun _ => none) 1 1 100).prevProc 7 = none ∧
    ∀ row ∈ (proc_tick [(7, "X-Plane")] [(7, procStats0)]
        (fun _ => none) 1 1 100).rows, row.pid ≠ 7 := by
  refine ⟨by decide, rfl, ?_, ?_, ?_⟩
  · exact (dead_pid_removed [(7, "X-Plane")] [(7, procStats0)]
      (fun _ => none) 1 1 100 7 (by decide) rfl).1.1
  · exact (dead_pid_removed [(7, "X-Plane")] [(7, procStats0)]
      (fun _ => none) 1 1 100 7 (by decide) rfl).1.2.1
  · exact (dead_pid_removed [(7, "X-Plane")] [(7, procStats0)]
      (fun _ => none) 1 1 100 7 (by decide) rfl).1.2.2

-- ── Helper lemmas on the per-source blocks of collect_step ──────────────

/-- Helper: fields of the loop state the CPU block never writes, and
the context-switch counter it parses. -/
theorem cpu_block_pres (s : MonState) (ts : ℚ)
    (r : Except Unit (List (CpuKey × List ℤ) × ℤ)) :
    (cpu_block s ts r).1.prevDisk = s.prevDisk ∧
    (cpu_block s ts r).1.prevIrq = s.prevIrq ∧
    (cpu_block s ts r).1.prevVmstat = s.prevVmstat ∧
    (cpu_block s ts r).1.prevCtxt = s.prevCtxt ∧
    (cpu_block s ts r).1.trackedPids = s.trackedPids ∧
    (cpu_block s ts r).1.prevProc = s.prevProc ∧
    (cpu_block s ts r).1.lastProcScan = s.lastProcScan ∧
    (cpu_block s ts r).1.sampleCount = s.sampleCount ∧
    (cpu_block s ts r).1.currCtxt
      = (match r with | .error _ => s.currCtxt | .ok cc => cc.2) := by
  unfold cpu_block
  cases r with
  | error e => exact ⟨rfl, rfl, rfl, rfl, rfl, rfl, rfl, rfl, rfl⟩
  | ok cc =>
    dsimp only
    cases cpu_delta s.prevCpu cc.1 <;>
      exact ⟨rfl, rfl, rfl, rfl, rfl, rfl, rfl, rfl, rfl⟩

/-- Helper: rows and log of the CPU block as functions of its own
reading and the previous CPU snapshot. -/
theorem cpu_block_out (s : MonState) (ts : ℚ)
    (r : Except Unit (List (CpuKey × List ℤ) × ℤ)) :
    (cpu_block s ts r).2.1 = (match r with
      | .error _ => []
      | .ok cc => match cpu_delta s.prevCpu cc.1 with
        | none => []
        | some cd => cd.map fun kv => (ts, kv.1, kv.2)) ∧
    (cpu_block s ts r).2.2 = (match r with
      | .error _ => ["CPU sample failed"]
      | .ok cc => match cpu_delta s.prevCpu cc.1 with
        | none => ["CPU sample failed"]
        | some _ => []) := by
  unfold cpu_block
  cases r with
  | error e => exact ⟨rfl, rfl⟩
  | ok cc =>
    dsimp only
    cases cpu_delta s.prevCpu cc.1 <;> exact ⟨rfl, rfl⟩

/-- Helper: fields of the loop state the disk block never writes. -/
theorem disk_block_pres (s : MonState) (ts dt : ℚ)
    (r : Except Unit (List (String × DiskSnap))) :
    (disk_block s ts dt r).1.prevIrq = s.prevIrq ∧
    (disk_block s ts dt r).1.prevVmstat = s.prevVmstat ∧
    (disk_block s ts dt r).1.prevCtxt = s.prevCtxt ∧
    (disk_block s ts dt r).1.currCtxt = s.currCtxt ∧
    (disk_block s ts dt r).1.trackedPids = s.trackedPids ∧
    (disk_block s ts dt r).1.prevProc = s.prevProc ∧
    (disk_block s ts dt r).1.lastProcScan = s.lastProcScan ∧
    (disk_block s ts dt r).1.sampleCount = s.sampleCount := by
  unfold disk_block
  cases r <;> exact ⟨rfl, rfl, rfl, rfl, rfl, rfl, rfl, rfl⟩

/-- Helper: rows and log of the disk block as functions of its own
reading, the previous disk snapshot and dt. -/
theorem disk_block_out (s : MonState) (ts dt : ℚ)
    (r : Except Unit (List (String × DiskSnap))) :
    (disk_block s ts dt r).2.1 = (match r with
      | .error _ => []
      | .ok cdisk => (diskstat_delta s.prevDisk cdisk dt).map
          fun kv => (ts, kv.1, kv.2)) ∧
    (disk_block s ts dt r).2.2 = (match r with
      | .error _ => ["IO sample failed"]
      | .ok _ => []) := by
  unfold disk_block
  cases r <;> exact ⟨rfl, rfl⟩

/-- Helper: fields of the loop state the memory block never writes. -/
theorem mem_block_pres (s : MonState) (ts : ℚ)
    (r : Except Unit (List (String × ℤ))) :
    (mem_block s ts r).1.prevIrq = s.prevIrq ∧
    (mem_block s ts r).1.prevVmstat = s.prevVmstat ∧
    (mem_block s ts r).1.prevCtxt = s.prevCtxt ∧
    (mem_block s ts r).1.currCtxt = s.currCtxt ∧
    (mem_block s ts r).1.trackedPids = s.trackedPids ∧
    (mem_block s ts r).1.prevProc = s.prevProc ∧
    (mem_block s ts r).1.lastProcScan = s.lastProcScan ∧
    (mem_block s ts r).1.sampleCount = s.sampleCount := by
  unfold mem_block
  cases r with
  | error e => exact ⟨rfl, rfl, rfl, rfl, rfl, rfl, rfl, rfl⟩
  | ok mi =>
    dsimp only
    cases mem_compute mi <;> exact ⟨rfl, rfl, rfl, rfl, rfl, rfl, rfl, rfl⟩

/-- Helper: row and log of the memory block as functions of its own
reading. -/
theorem mem_block_out (s : MonState) (ts : ℚ)
    (r : Except Unit (List (String × ℤ))) :
    (mem_block s ts r).2.1 = (match r with
      | .error _ => none
      | .ok mi => match mem_compute mi with
        | none => none
        | some mr => some (ts, mr)) ∧
    (mem_block s ts r).2.2 = (match r with
      | .error _ => ["Memory sample failed"]
      | .ok mi => match mem_compute mi with
        | none => ["Memory sample failed"]
        | some _ => []) := by
  unfold mem_block
  cases r with
  | error e => exact ⟨rfl, rfl⟩
  | ok mi =>
    dsimp only
    cases mem_compute mi <;> exact ⟨rfl, rfl⟩

/-- Helper: fields of the loop state the interrupt block never
writes. -/
theorem irq_block_pres (numCpus : ℕ) (s : MonState) (ts slowDt : ℚ)
    (r : Except Unit (List (String × IrqSnap))) :
    (irq_block numCpus s ts slowDt r).1.prevVmstat = s.prevVmstat ∧
    (irq_block numCpus s ts slowDt r).1.prevCtxt = s.prevCtxt ∧
    (irq_block numCpus s ts slowDt r).1.currCtxt = s.currCtxt ∧
    (irq_block numCpus s ts slowDt r).1.trackedPids = s.trackedPids ∧
    (irq_block numCpus s ts slowDt r).1.prevProc = s.prevProc ∧
    (irq_block numCpus s ts slowDt r).1.lastProcScan = s.lastProcScan ∧
    (irq_block numCpus s ts slowDt r).1.sampleCount = s.sampleCount := by
  unfold irq_block
  cases r <;> exact ⟨rfl, rfl, rfl, rfl, rfl, rfl, rfl⟩

/-- Helper: rows and log of the interrupt block as functions of its own
reading, the previous interrupt snapshot and the slow elapsed time. -/
theorem irq_block_out (numCpus : ℕ) (s : MonState) (ts slowDt : ℚ)
    (r : Except Unit (List (String × IrqSnap))) :
    (irq_block numCpus s ts slowDt r).2.1 = (match r with
      | .error _ => []
      | .ok cirq => (interrupt_delta s.prevIrq cirq numCpus).map fun kv =>
          (ts, kv.1, kv.2.1.map (fun x => (x : ℚ) / slowDt), kv.2.2)) ∧
    (irq_block numCpus s ts slowDt r).2.2 = (match r with
      | .error _ => ["IRQ sample failed"]
      | .ok _ => []) := by
  unfold irq_block
  cases r <;> exact ⟨rfl, rfl⟩

/-- Helper: the VRAM block is a pure function of its own reading. -/
theorem vram_block_eq (ts : ℚ) (r : Except Unit String) :
    vram_block ts r = (match r with
      | .error _ => (none, ["VRAM sample failed"])
      | .ok v => (if v = "" then none else some (ts, v), [])) := by
  unfold vram_block
  cases r <;> rfl

/-- Helper: fields of the loop state the vmstat block never writes. -/
theorem vmstat_block_pres (s : MonState) (ts slowDt : ℚ)
    (r : Except Unit (List (String × ℤ))) :
    (vmstat_block s ts slowDt r).1.trackedPids = s.trackedPids ∧
    (vmstat_block s ts slowDt r).1.prevProc = s.prevProc ∧
    (vmstat_block s ts slowDt r).1.lastProcScan = s.lastProcScan ∧
    (vmstat_block s ts slowDt r).1.sampleCount = s.sampleCount := by
  unfold vmstat_block
  cases r <;> exact ⟨rfl, rfl, rfl, rfl⟩

/-- Helper: row and log of the vmstat block as functions of its own
reading, the vmstat snapshot and the two context-switch counters. -/
theorem vmstat_block_out (s : MonState) (ts slowDt : ℚ)
    (r : Except Unit (List (String × ℤ))) :
    (vmstat_block s ts slowDt r).2.1 = (match r with
      | .error _ => none
      | .ok cv => some (ts,
          vmstat_delta s.prevVmstat cv s.prevCtxt s.currCtxt slowDt)) ∧
    (vmstat_block s ts slowDt r).2.2 = (match r with
      | .error _ => ["vmstat sample failed"]
      | .ok _ => []) := by
  unfold vmstat_block
  cases r <;> exact ⟨rfl, rfl⟩

/-- Helper: the PSI block is a pure function of its own reading. -/
theorem psi_block_eq (ts : ℚ) (r : Except Unit PsiData) :
    psi_block ts r = (match r with
      | .error _ => (none, ["PSI sample failed"])
      | .ok p => (some (ts, p), [])) := by
  unfold psi_block
  cases r <;> rfl

/-- Helper: the frequency block is a pure function of its own
reading. -/
theorem freq_block_eq (ts : ℚ) (r : Except Unit (List ℚ)) :
    freq_block ts r = (match r with
      | .error _ => (none, ["CPU freq sample failed"])
      | .ok fs => (some (ts, fs), [])) := by
  unfold freq_block
  cases r <;> rfl

/-- Helper: the process block never writes the sample counter. -/
theorem proc_block_pres (clkTck : ℚ) (s : MonState) (ts nowMono slowDt : ℚ)
    (r : Except Unit ProcInput) :
    (proc_block clkTck s ts nowMono slowDt r).1.sampleCount
      = s.sampleCount := by
  unfold proc_block
  cases r <;> rfl

/-- Helper: rows and log of the process block as functions of its own
reading and the tracker fields of the state. -/
theorem proc_block_out (clkTck : ℚ) (s : MonState) (ts nowMono slowDt : ℚ)
    (r : Except Unit ProcInput) :
    (proc_block clkTck s ts nowMono slowDt r).2.1 = (match r with
      | .error _ => []
      | .ok pin => (proc_tick
          (if procScanInterval ≤ nowMono - s.lastProcScan then pin.scan
           else s.trackedPids)
          s.prevProc pin.read ts slowDt clkTck).rows) ∧
    (proc_block clkTck s ts nowMono slowDt r).2.2 = (match r with
      | .error _ => ["Process tracking failed"]
      | .ok _ => []) := by
  unfold proc_block
  cases r <;> exact ⟨rfl, rfl⟩

/-- Component of cpu_block_pres, restated for rewriting. -/
theorem cpu_block_prevDisk (s : MonState) (ts : ℚ) (r) :
    (cpu_block s ts r).1.prevDisk = s.prevDisk := (cpu_block_pres s ts r).1

/-- Component of cpu_block_pres, restated for rewriting. -/
theorem cpu_block_prevIrq (s : MonState) (ts : ℚ) (r) :
    (cpu_block s ts r).1.prevIrq = s.prevIrq := (cpu_block_pres s ts r).2.1

/-- Component of cpu_block_pres, restated for rewriting. -/
theorem cpu_block_prevVmstat (s : MonState) (ts : ℚ) (r) :
    (cpu_block s ts r).1.prevVmstat = s.prevVmstat :=
  (cpu_block_pres s ts r).2.2.1

/-- Component of cpu_block_pres, restated for rewriting. -/
theorem cpu_block_prevCtxt (s : MonState) (ts : ℚ) (r) :
    (cpu_block s ts r).1.prevCtxt = s.prevCtxt :=
  (cpu_block_pres s ts r).2.2.2.1

/-- Component of cpu_block_pres, restated for rewriting. -/
theorem cpu_block_trackedPids (s : MonState) (ts : ℚ) (r) :
    (cpu_block s ts r).1.trackedPids = s.trackedPids :=
  (cpu_block_pres s ts r).2.2.2.2.1

/-- Component of cpu_block_pres, restated for rewriting. -/
theorem cpu_block_prevProc (s : MonState) (ts : ℚ) (r) :
    (cpu_block s ts r).1.prevProc = s.prevProc :=
  (cpu_block_pres s ts r).2.2.2.2.2.1

/-- Component of cpu_block_pres, restated for rewriting. -/
theorem cpu_block_lastProcScan (s : MonState) (ts : ℚ) (r) :
    (cpu_block s ts r).1.lastProcScan = s.lastProcScan :=
  (cpu_block_pres s ts r).2.2.2.2.2.2.1

/-- Component of cpu_block_pres, restated for rewriting. -/
theorem cpu_block_sampleCount (s : MonState) (ts : ℚ) (r) :
    (cpu_block s ts r).1.sampleCount = s.sampleCount :=
  (cpu_block_pres s ts r).2.2.2.2.2.2.2.1

/-- Component of cpu_block_pres, restated for rewriting. -/
theorem cpu_block_currCtxt (s : MonState) (ts : ℚ) (r) :
    (cpu_block s ts r).1.currCtxt
      = (match r with | .error _ => s.currCtxt | .ok cc => cc.2) :=
  (cpu_block_pres s ts r).2.2.2.2.2.2.2.2

/-- Component of cpu_block_out, restated for rewriting. -/
theorem cpu_block_rows (s : MonState) (ts : ℚ) (r) :
    (cpu_block s ts r).2.1 = (match r with
      | .error _ => []
      | .ok cc => match cpu_delta s.prevCpu cc.1 with
        | none => []
        | some cd => cd.map fun kv => (ts, kv.1, kv.2)) :=
  (cpu_block_out s ts r).1

/-- Component of cpu_block_out, restated for rewriting. -/
theorem cpu_block_logs (s : MonState) (ts : ℚ) (r) :
    (cpu_block s ts r).2.2 = (match r with
      | .error _ => ["CPU sample failed"]
      | .ok cc => match cpu_delta s.prevCpu cc.1 with
        | none => ["CPU sample failed"]
        | some _ => []) :=
  (cpu_block_out s ts r).2

/-- Component of disk_block_pres, restated for rewriting. -/
theorem disk_block_prevIrq (s : MonState) (ts dt : ℚ) (r) :
    (disk_block s ts dt r).1.prevIrq = s.prevIrq :=
  (disk_block_pres s ts dt r).1

/-- Component of disk_block_pres, restated for rewriting. -/
theorem disk_block_prevVmstat (s : MonState) (ts dt : ℚ) (r) :
    (disk_block s ts dt r).1.prevVmstat = s.prevVmstat :=
  (disk_block_pres s ts dt r).2.1

/-- Component of disk_block_pres, restated for rewriting. -/
theorem disk_block_prevCtxt (s : MonState) (ts dt : ℚ) (r) :
    (disk_block s ts dt r).1.prevCtxt = s.prevCtxt :=
  (disk_block_pres s ts dt r).2.2.1

/-- Component of disk_block_pres, restated for rewriting. -/
theorem disk_block_currCtxt (s : MonState) (ts dt : ℚ) (r) :
    (disk_block s ts dt r).1.currCtxt = s.currCtxt :=
  (disk_block_pres s ts dt r).2.2.2.1

/-- Component of disk_block_pres, restated for rewriting. -/
theorem disk_block_trackedPids (s : MonState) (ts dt : ℚ) (r) :
    (disk_block s ts dt r).1.trackedPids = s.trackedPids :=
  (disk_block_pres s ts dt r).2.2.2.2.1

/-- Component of disk_block_pres, restated for rewriting. -/
theorem disk_block_prevProc (s : MonState) (ts dt : ℚ) (r) :
    (disk_block s ts dt r).1.prevProc = s.prevProc :=
  (disk_block_pres s ts dt r).2.2.2.2.2.1

/-- Component of disk_block_pres, restated for rewriting. -/
theorem disk_block_lastProcScan (s : MonState) (ts dt : ℚ) (r) :
    (disk_block s ts dt r).1.lastProcScan = s.lastProcScan :=
  (disk_block_pres s ts dt r).2.2.2.2.2.2.1

/-- Component of disk_block_pres, restated for rewriting. -/
theorem disk_block_sampleCount (s : MonState) (ts dt : ℚ) (r) :
    (disk_block s ts dt r).1.sampleCount = s.sampleCount :=
  (disk_block_pres s ts dt r).2.2.2.2.2.2.2

/-- Component of disk_block_out, restated for rewriting. -/
theorem disk_block_rows (s : MonState) (ts dt : ℚ) (r) :
    (disk_block s ts dt r).2.1 = (match r with
      | .error _ => []
      | .ok cdisk => (diskstat_delta s.prevDisk cdisk dt).map
          fun kv => (ts, kv.1, kv.2)) :=
  (disk_block_out s ts dt r).1

/-- Component of disk_block_out, restated for rewriting. -/
theorem disk_block_logs (s : MonState) (ts dt : ℚ) (r) :
    (disk_block s ts dt r).2.2 = (match r with
      | .error _ => ["IO sample failed"]
      | .ok _ => []) :=
  (disk_block_out s ts dt r).2

/-- Component of mem_block_pres, restated for rewriting. -/
theorem mem_block_prevIrq (s : MonState) (ts : ℚ) (r) :
    (mem_block s ts r).1.prevIrq = s.prevIrq := (mem_block_pres s ts r).1

/-- Component of mem_block_pres, restated for rewriting. -/
theorem mem_block_prevVmstat (s : MonState) (ts : ℚ) (r) :
    (mem_block s ts r).1.prevVmstat = s.prevVmstat :=
  (mem_block_pres s ts r).2.1

/-- Component of mem_block_pres, restated for rewriting. -/
theorem mem_block_prevCtxt (s : MonState) (ts : ℚ) (r) :
    (mem_block s ts r).1.prevCtxt = s.prevCtxt :=
  (mem_block_pres s ts r).2.2.1

/-- Component of mem_block_pres, restated for rewriting. -/
theorem mem_block_currCtxt (s : MonState) (ts : ℚ) (r) :
    (mem_block s ts r).1.currCtxt = s.currCtxt :=
  (mem_block_pres s ts r).2.2.2.1

/-- Component of mem_block_pres, restated for rewriting. -/
theorem mem_block_trackedPids (s : MonState) (ts : ℚ) (r) :
    (mem_block s ts r).1.trackedPids = s.trackedPids :=
  (mem_block_pres s ts r).2.2.2.2.1

/-- Component of mem_block_pres, restated for rewriting. -/
theorem mem_block_prevProc (s : MonState) (ts : ℚ) (r) :
    (mem_block s ts r).1.prevProc = s.prevProc :=
  (mem_block_pres s ts r).2.2.2.2.2.1

/-- Component of mem_block_pres, restated for rewriting. -/
theorem mem_block_lastProcScan (s : MonState) (ts : ℚ) (r) :
    (mem_block s ts r).1.lastProcScan = s.lastProcScan :=
  (mem_block_pres s ts r).2.2.2.2.2.2.1

/-- Component of mem_block_pres, restated for rewriting. -/
theorem mem_block_sampleCount (s : MonState) (ts : ℚ) (r) :
    (mem_block s ts r).1.sampleCount = s.sampleCount :=
  (mem_block_pres s ts r).2.2.2.2.2.2.2

/-- Component of mem_block_out, restated for rewriting. -/
theorem mem_block_row (s : MonState) (ts : ℚ) (r) :
    (mem_block s ts r).2.1 = (match r with
      | .error _ => none
      | .ok mi => match mem_compute mi with
        | none => none
        | some mr => some (ts, mr)) :=
  (mem_block_out s ts r).1

/-- Component of mem_block_out, restated for rewriting. -/
theorem mem_block_logs (s : MonState) (ts : ℚ) (r) :
    (mem_block s ts r).2.2 = (match r with
      | .error _ => ["Memory sample failed"]
      | .ok mi => match mem_compute mi with
        | none => ["Memory sample failed"]
        | some _ => []) :=
  (mem_block_out s ts r).2

/-- Component of irq_block_pres, restated for rewriting. -/
theorem irq_block_prevVmstat (numCpus : ℕ) (s : MonState) (ts slowDt : ℚ) (r) :
    (irq_block numCpus s ts slowDt r).1.prevVmstat = s.prevVmstat :=
  (irq_block_pres numCpus s ts slowDt r).1

/-- Component of irq_block_pres, restated for rewriting. -/
theorem irq_block_prevCtxt (numCpus : ℕ) (s : MonState) (ts slowDt : ℚ) (r) :
    (irq_block numCpus s ts slowDt r).1.prevCtxt = s.prevCtxt :=
  (irq_block_pres numCpus s ts slowDt r).2.1

/-- Component of irq_block_pres, restated for rewriting. -/
theorem irq_block_currCtxt (numCpus : ℕ) (s : MonState) (ts slowDt : ℚ) (r) :
    (irq_block numCpus s ts slowDt r).1.currCtxt = s.currCtxt :=
  (irq_block_pres numCpus s ts slowDt r).2.2.1

/-- Component of irq_block_pres, restated for rewriting. -/
theorem irq_block_trackedPids (numCpus : ℕ) (s : MonState) (ts slowDt : ℚ)
    (r) :
    (irq_block numCpus s ts slowDt r).1.trackedPids = s.trackedPids :=
  (irq_block_pres numCpus s ts slowDt r).2.2.2.1

/-- Component of irq_block_pres, restated for rewriting. -/
theorem irq_block_prevProc (numCpus : ℕ) (s : MonState) (ts slowDt : ℚ) (r) :
    (irq_block numCpus s ts slowDt r).1.prevProc = s.prevProc :=
  (irq_block_pres numCpus s ts slowDt r).2.2.2.2.1

/-- Component of irq_block_pres, restated for rewriting. -/
theorem irq_block_lastProcScan (numCpus : ℕ) (s : MonState) (ts slowDt : ℚ)
    (r) :
    (irq_block numCpus s ts slowDt r).1.lastProcScan = s.lastProcScan :=
  (irq_block_pres numCpus s ts slowDt r).2.2.2.2.2.1

/-- Component of irq_block_pres, restated for rewriting. -/
theorem irq_block_sampleCount (numCpus : ℕ) (s : MonState) (ts slowDt : ℚ)
    (r) :
    (irq_block numCpus s ts slowDt r).1.sampleCount = s.sampleCount :=
  (irq_block_pres numCpus s ts slowDt r).2.2.2.2.2.2

/-- Component of irq_block_out, restated for rewriting. -/
theorem irq_block_rows (numCpus : ℕ) (s : MonState) (ts slowDt : ℚ) (r) :
    (irq_block numCpus s ts slowDt r).2.1 = (match r with
      | .error _ => []
      | .ok cirq => (interrupt_delta s.prevIrq cirq numCpus).map fun kv =>
          (ts, kv.1, kv.2.1.map (fun x => (x : ℚ) / slowDt), kv.2.2)) :=
  (irq_block_out numCpus s ts slowDt r).1

/-- Component of irq_block_out, restated for rewriting. -/
theorem irq_block_logs (numCpus : ℕ) (s : MonState) (ts slowDt : ℚ) (r) :
    (irq_block numCpus s ts slowDt r).2.2 = (match r with
      | .error _ => ["IRQ sample failed"]
      | .ok _ => []) :=
  (irq_block_out numCpus s ts slowDt r).2

/-- Component of vmstat_block_pres, restated for rewriting. -/
theorem vmstat_block_trackedPids (s : MonState) (ts slowDt : ℚ) (r) :
    (vmstat_block s ts slowDt r).1.trackedPids = s.trackedPids :=
  (vmstat_block_pres s ts slowDt r).1

/-- Component of vmstat_block_pres, restated for rewriting. -/
theorem vmstat_block_prevProc (s : MonState) (ts slowDt : ℚ) (r) :
    (vmstat_block s ts slowDt r).1.prevProc = s.prevProc :=
  (vmstat_block_pres s ts slowDt r).2.1

/-- Component of vmstat_block_pres, restated for rewriting. -/
theorem vmstat_block_lastProcScan (s : MonState) (ts slowDt : ℚ) (r) :
    (vmstat_block s ts slowDt r).1.lastProcScan = s.lastProcScan :=
  (vmstat_block_pres s ts slowDt r).2.2.1

/-- Component of vmstat_block_pres, restated for rewriting. -/
theorem vmstat_block_sampleCount (s : MonState) (ts slowDt : ℚ) (r) :
    (vmstat_block s ts slowDt r).1.sampleCount = s.sampleCount :=
  (vmstat_block_pres s ts slowDt r).2.2.2

/-- Component of vmstat_block_out, restated for rewriting. -/
theorem vmstat_block_row (s : MonState) (ts slowDt : ℚ) (r) :
    (vmstat_block s ts slowDt r).2.1 = (match r with
      | .error _ => none
      | .ok cv => some (ts,
          vmstat_delta s.prevVmstat cv s.prevCtxt s.currCtxt slowDt)) :=
  (vmstat_block_out s ts slowDt r).1

/-- Component of vmstat_block_out, restated for rewriting. -/
theorem vmstat_block_logs (s : MonState) (ts slowDt : ℚ) (r) :
    (vmstat_block s ts slowDt r).2.2 = (match r with
      | .error _ => ["vmstat sample failed"]
      | .ok _ => []) :=
  (vmstat_block_out s ts slowDt r).2

/-- Component of proc_block_out, restated for rewriting. -/
theorem proc_block_rows (clkTck : ℚ) (s : MonState) (ts nowMono slowDt : ℚ)
    (r) :
    (proc_block clkTck s ts nowMono slowDt r).2.1 = (match r with
      | .error _ => []
      | .ok pin => (proc_tick
          (if procScanInterval ≤ nowMono - s.lastProcScan then pin.scan
           else s.trackedPids)
          s.prevProc pin.read ts slowDt clkTck).rows) :=
  (proc_block_out clkTck s ts nowMono slowDt r).1

/-- Component of proc_block_out, restated for rewriting. -/
theorem proc_block_logs (clkTck : ℚ) (s : MonState) (ts nowMono slowDt : ℚ)
    (r) :
    (proc_block clkTck s ts nowMono slowDt r).2.2 = (match r with
      | .error _ => ["Process tracking failed"]
      | .ok _ => []) :=
  (proc_block_out clkTck s ts nowMono slowDt r).2

/-- C7: a failure raised inside any single per-source sampling block of
an accepted tick is caught and logged with that source's name, never
terminates the iteration (the sample counter always advances), and its
rows alone are missing; every source's output is determined by its own
reading together with state fields no other block writes, the one true
cross dependence being the vmstat row, which reuses the context-switch
counter parsed by the CPU block of this or an earlier tick. -/
theorem per_source_isolation (numCpus : ℕ) (clkTck : ℚ) (s : MonState)
    (inp : TickInput) (hdt : 1/20 ≤ inp.nowMono - s.prevTime) :
    (collect_step numCpus clkTck s inp).1.sampleCount = s.sampleCount + 1 ∧
    (inp.cpu = .error () →
      (collect_step numCpus clkTck s inp).2.cpuRows = [] ∧
      "CPU sample failed" ∈ (collect_step numCpus clkTck s inp).2.logs) ∧
    (inp.disk = .error () →
      (collect_step numCpus clkTck s inp).2.ioRows = [] ∧
      "IO sample failed" ∈ (collect_step numCpus clkTck s inp).2.logs) ∧
    (inp.mem = .error () →
      (collect_step numCpus clkTck s inp).2.memRow = none ∧
      "Memory sample failed" ∈ (collect_step numCpus clkTck s inp).2.logs) ∧
    (1 ≤ inp.nowMono - s.lastSlow →
      (inp.irq = .error () →
        (collect_step numCpus clkTck s inp).2.irqRows = [] ∧
        "IRQ sample failed" ∈ (collect_step numCpus clkTck s inp).2.logs) ∧
      (inp.vram = .error () →
        (collect_step numCpus clkTck s inp).2.vramRow = none ∧
        "VRAM sample failed" ∈ (collect_step numCpus clkTck s inp).2.logs) ∧
      (inp.vmstat = .error () →
        (collect_step numCpus clkTck s inp).2.vmstatRow = none ∧
        "vmstat sample failed" ∈ (collect_step numCpus clkTck s inp).2.logs) ∧
      (inp.psi = .error () →
        (collect_step numCpus clkTck s inp).2.psiRow = none ∧
        "PSI sample failed" ∈ (collect_step numCpus clkTck s inp).2.logs) ∧
      (inp.freq = .error () →
        (collect_step numCpus clkTck s inp).2.freqRow = none ∧
        "CPU freq sample failed" ∈ (collect_step numCpus clkTck s inp).2.logs) ∧
      (inp.proc = .error () →
        (collect_step numCpus clkTck s inp).2.procRows = [] ∧
        "Process tracking failed"
          ∈ (collect_step numCpus clkTck s inp).2.logs)) ∧
    ((collect_step numCpus clkTck s inp).2.cpuRows = (match inp.cpu with
      | .error _ => []
      | .ok cc => match cpu_delta s.prevCpu cc.1 with
        | none => []
        | some cd => cd.map fun kv => (inp.ts, kv.1, kv.2))) ∧
    ((collect_step numCpus clkTck s inp).2.ioRows = (match inp.disk with
      | .error _ => []
      | .ok cdisk =>
          (diskstat_delta s.prevDisk cdisk (inp.nowMono - s.prevTime)).map
            fun kv => (inp.ts, kv.1, kv.2))) ∧
    ((collect_step numCpus clkTck s inp).2.memRow = (match inp.mem with
      | .error _ => none
      | .ok mi => match mem_compute mi with
        | none => none
        | some mr => some (inp.ts, mr))) ∧
    (1 ≤ inp.nowMono - s.lastSlow →
      ((collect_step numCpus clkTck s inp).2.irqRows = (match inp.irq with
        | .error _ => []
        | .ok cirq => (interrupt_delta s.prevIrq cirq numCpus).map fun kv =>
            (inp.ts, kv.1,
             kv.2.1.map (fun x => (x : ℚ) / (inp.nowMono - s.lastSlow)),
             kv.2.2))) ∧
      ((collect_step numCpus clkTck s inp).2.vramRow = (match inp.vram with
        | .error _ => none
        | .ok v => if v = "" then none else some (inp.ts, v))) ∧
      ((collect_step numCpus clkTck s inp).2.vmstatRow = (match inp.vmstat with
        | .error _ => none
        | .ok cv => some (inp.ts,
            vmstat_delta s.prevVmstat cv s.prevCtxt
              (match inp.cpu with | .error _ => s.currCtxt | .ok cc => cc.2)
              (inp.nowMono - s.lastSlow)))) ∧
      ((collect_step numCpus clkTck s inp).2.psiRow = (match inp.psi with
        | .error _ => none
        | .ok p => some (inp.ts, p))) ∧
      ((collect_step numCpus clkTck s inp).2.freqRow = (match inp.freq with
        | .error _ => none
        | .ok fs => some (inp.ts, fs))) ∧
      ((collect_step numCpus clkTck s inp).2.procRows = (match inp.proc with
        | .error _ => []
        | .ok pin => (proc_tick
            (if procScanInterval ≤ inp.nowMono - s.lastProcScan then pin.scan
             else s.trackedPids)
            s.prevProc pin.read inp.ts (inp.nowMono - s.lastSlow)
            clkTck).rows))) := by
  have hdt' : ¬ (inp.nowMono - s.prevTime < 1/20) := not_lt.mpr hdt
  refine ⟨?_, ?_, ?_, ?_, ?_, ?_, ?_, ?_, ?_⟩
  · -- the sample counter always advances
    simp only [collect_step]
    rw [if_neg hdt']
    by_cases hslow : 1 ≤ inp.nowMono - s.lastSlow
    · rw [if_pos hslow]
      dsimp only
      simp only [proc_block_pres, vmstat_block_sampleCount,
        irq_block_sampleCount, mem_block_sampleCount, disk_block_sampleCount,
        cpu_block_sampleCount]
    · rw [if_neg hslow]
      dsimp only
      simp only [mem_block_sampleCount, disk_block_sampleCount,
        cpu_block_sampleCount]
  · -- CPU failure: no rows, logged
    intro hc
    constructor
    · simp only [collect_step]
      rw [if_neg hdt']
      by_cases hslow : 1 ≤ inp.nowMono - s.lastSlow
      · rw [if_pos hslow]
        dsimp only
        rw [hc]
        rfl
      · rw [if_neg hslow]
        dsimp only
        rw [hc]
        rfl
    · simp only [collect_step]
      rw [if_neg hdt']
      by_cases hslow : 1 ≤ inp.nowMono - s.lastSlow
      · rw [if_pos hslow]
        dsimp only
        rw [hc]
        simp [cpu_block, List.mem_append]
      · rw [if_neg hslow]
        dsimp only
        rw [hc]
        simp [cpu_block, List.mem_append]
  · -- disk failure: no rows, logged
    intro hc
    constructor
    · simp only [collect_step]
      rw [if_neg hdt']
      by_cases hslow : 1 ≤ inp.nowMono - s.lastSlow
      · rw [if_pos hslow]
        dsimp only
        rw [hc]
        rfl
      · rw [if_neg hslow]
        dsimp only
        rw [hc]
        rfl
    · simp only [collect_step]
      rw [if_neg hdt']
      by_cases hslow : 1 ≤ inp.nowMono - s.lastSlow
      · rw [if_pos hslow]
        dsimp only
        rw [hc]
        simp [disk_block, List.mem_append]
      · rw [if_neg hslow]
        dsimp only
        rw [hc]
        simp [disk_block, List.mem_append]
  · -- memory failure: no row, logged
    intro hc
    constructor
    · simp only [collect_step]
      rw [if_neg hdt']
      by_cases hslow : 1 ≤ inp.nowMono - s.lastSlow
      · rw [if_pos hslow]
        dsimp only
        rw [hc]
        rfl
      · rw [if_neg hslow]
        dsimp only
        rw [hc]
        rfl
    · simp only [collect_step]
      rw [if_neg hdt']
      by_cases hslow : 1 ≤ inp.nowMono - s.lastSlow
      · rw [if_pos hslow]
        dsimp only
        rw [hc]
        simp [mem_block, List.mem_append]
      · rw [if_neg hslow]
        dsimp only
        rw [hc]
        simp [mem_block, List.mem_append]
  · -- slow-tier failures: no rows, logged
    intro hslow
    refine ⟨?_, ?_, ?_, ?_, ?_, ?_⟩ <;> intro hc <;> constructor
    · simp only [collect_step]
      rw [if_neg hdt', if_pos hslow]
      dsimp only
      rw [hc]
      rfl
    · simp only [collect_step]
      rw [if_neg hdt', if_pos hslow]
      dsimp only
      rw [hc]
      simp [irq_block, List.mem_append]
    · simp only [collect_step]
      rw [if_neg hdt', if_pos hslow]
      dsimp only
      rw [hc]
      rfl
    · simp only [collect_step]
      rw [if_neg hdt', if_pos hslow]
      dsimp only
      rw [hc]
      simp [vram_block, List.mem_append]
    · simp only [collect_step]
      rw [if_neg hdt', if_pos hslow]
      dsimp only
      rw [hc]
      rfl
    · simp only [collect_step]
      rw [if_neg hdt', if_pos hslow]
      dsimp only
      rw [hc]
      simp [vmstat_block, List.mem_append]
    · simp only [collect_step]
      rw [if_neg hdt', if_pos hslow]
      dsimp only
      rw [hc]
      rfl
    · simp only [collect_step]
      rw [if_neg hdt', if_pos hslow]
      dsimp only
      rw [hc]
      simp [psi_block, List.mem_append]
    · simp only [collect_step]
      rw [if_neg hdt', if_pos hslow]
      dsimp only
      rw [hc]
      rfl
    · simp only [collect_step]
      rw [if_neg hdt', if_pos hslow]
      dsimp only
      rw [hc]
      simp [freq_block, List.mem_append]
    · simp only [collect_step]
      rw [if_neg hdt', if_pos hslow]
      dsimp only
      rw [hc]
      rfl
    · simp only [collect_step]
      rw [if_neg hdt', if_pos hslow]
      dsimp only
      rw [hc]
      simp [proc_block, List.mem_append]
  · -- CPU rows depend only on the CPU reading
    simp only [collect_step]
    rw [if_neg hdt']
    by_cases hslow : 1 ≤ inp.nowMono - s.lastSlow
    · rw [if_pos hslow]
      dsimp only
      simp only [cpu_block_rows]
    · rw [if_neg hslow]
      dsimp only
      simp only [cpu_block_rows]
  · -- IO rows depend only on the disk reading
    simp only [collect_step]
    rw [if_neg hdt']
    by_cases hslow : 1 ≤ inp.nowMono - s.lastSlow
    · rw [if_pos hslow]
      dsimp only
      simp only [disk_block_rows, cpu_block_prevDisk]
    · rw [if_neg hslow]
      dsimp only
      simp only [disk_block_rows, cpu_block_prevDisk]
  · -- the memory row depends only on the meminfo reading
    simp only [collect_step]
    rw [if_neg hdt']
    by_cases hslow : 1 ≤ inp.nowMono - s.lastSlow
    · rw [if_pos hslow]
      dsimp only
      simp only [mem_block_row]
    · rw [if_neg hslow]
      dsimp only
      simp only [mem_block_row]
  · -- slow-tier outputs
    intro hslow
    refine ⟨?_, ?_, ?_, ?_, ?_, ?_⟩
    · simp only [collect_step]
      rw [if_neg hdt', if_pos hslow]
      dsimp only
      simp only [irq_block_rows, mem_block_prevIrq, disk_block_prevIrq,
        cpu_block_prevIrq]
    · simp only [collect_step]
      rw [if_neg hdt', if_pos hslow]
      dsimp only
      cases inp.vram <;> rfl
    · simp only [collect_step]
      rw [if_neg hdt', if_pos hslow]
      dsimp only
      simp only [vmstat_block_row, irq_block_prevVmstat, mem_block_prevVmstat,
        disk_block_prevVmstat, cpu_block_prevVmstat, irq_block_prevCtxt,
        mem_block_prevCtxt, disk_block_prevCtxt, cpu_block_prevCtxt,
        irq_block_currCtxt, mem_block_currCtxt, disk_block_currCtxt,
        cpu_block_currCtxt]
    · simp only [collect_step]
      rw [if_neg hdt', if_pos hslow]
      dsimp only
      cases inp.psi <;> rfl
    · simp only [collect_step]
      rw [if_neg hdt', if_pos hslow]
      dsimp only
      cases inp.freq <;> rfl
    · simp only [collect_step]
      rw [if_neg hdt', if_pos hslow]
      dsimp only
      simp only [proc_block_rows, vmstat_block_trackedPids,
        irq_block_trackedPids, mem_block_trackedPids, disk_block_trackedPids,
        cpu_block_trackedPids, vmstat_block_prevProc, irq_block_prevProc,
        mem_block_prevProc, disk_block_prevProc, cpu_block_prevProc,
        vmstat_block_lastProcScan, irq_block_lastProcScan,
        mem_block_lastProcScan, disk_block_lastProcScan,
        cpu_block_lastProcScan]

/-- Witness for C7: on an accepted slow tick with failing PSI and
process readings, the iteration completes, advances the counter, logs
both failures by name, and skips exactly those two rows. -/
theorem per_source_isolation_witness :
    (1/20 : ℚ) ≤ tickLong.nowMono - mon0.prevTime ∧
    (1 : ℚ) ≤ tickLong.nowMono - mon0.lastSlow ∧
    tickLong.psi = .error () ∧
    tickLong.proc = .error () ∧
    (collect_step 2 100 mon0 tickLong).1.sampleCount = mon0.sampleCount + 1 ∧
    (collect_step 2 100 mon0 tickLong).2.psiRow = none ∧
    "PSI sample failed" ∈ (collect_step 2 100 mon0 tickLong).2.logs ∧
    (collect_step 2 100 mon0 tickLong).2.procRows = [] ∧
    "Process tracking failed" ∈ (collect_step 2 100 mon0 tickLong).2.logs := by
  have h := per_source_isolation 2 100 mon0 tickLong
    (by norm_num [tickLong, mon0])
  have hslow : (1 : ℚ) ≤ tickLong.nowMono - mon0.lastSlow := by
    norm_num [tickLong, mon0]
  refine ⟨by norm_num [tickLong, mon0], hslow, rfl, rfl, h.1, ?_, ?_, ?_, ?_⟩
  · exact ((h.2.2.2.2.1 hslow).2.2.2.1 rfl).1
  · exact ((h.2.2.2.2.1 hslow).2.2.2.1 rfl).2
  · exact ((h.2.2.2.2.1 hslow).2.2.2.2.2 rfl).1
  · exact ((h.2.2.2.2.1 hslow).2.2.2.2.2 rfl).2

end Sysmon
